import Mathlib

/-!
Verification of the script-generation core of the fusion360-mcp-server
repository (src/src/script_generator.py and the error-classifying façade in
src/src/main.py).

The embedding models Python values that flow through the generator (strings,
integers, integer arrays — the only value shapes the catalog and the claims
use), Python dicts as insertion-ordered association lists, Python `str.format`
over named placeholders with `\x7b\x7b`-escapes, and exceptions as an
`Except` result. Machine floats never reach the generator's logic (numeric
parameters are substituted textually), so integers suffice for the modelled
defaults.
-/

/-- Values a tool-call parameter mapping can hold: JSON strings, integers,
and integer arrays (the value shapes used by the catalog defaults and the
claims). -/
inductive Value where
  | str (s : String)
  | int (n : Int)
  | listI (xs : List Int)
deriving DecidableEq, Repr

/-- Python exceptions raised by the generator: `ValueError` (unknown tool,
missing template, invalid enumerated value), `KeyError` (dict subscript and
`str.format` placeholder misses), `AttributeError` (calling `.lower()` on a
non-string), `TypeError` (iterating a non-iterable). -/
inductive PyError where
  | valueError (msg : String)
  | keyError (key : String)
  | attributeError (msg : String)
  | typeError (msg : String)
deriving DecidableEq, Repr

deriving instance DecidableEq for Except

/-- A Python dict, modelled as an insertion-ordered association list with
unique keys (Python dict semantics). -/
abbrev Dict := List (String × Value)

/-- Dict lookup: `d[k]` / `d.get(k)`. -/
def dictGet (d : Dict) (k : String) : Option Value :=
  (d.find? (fun kv => kv.1 == k)).map (fun kv => kv.2)

/-- Dict assignment `d[k] = v`: replaces the key's binding in place when the
key exists (preserving its position, as Python dicts do) and appends a new
binding at the end otherwise. -/
def dictSet (d : Dict) (k : String) (v : Value) : Dict :=
  match d with
  | [] => [(k, v)]
  | kv :: rest => if kv.1 == k then (k, v) :: rest else kv :: dictSet rest k v

/-- Python `str(value)` as used when a value is substituted into a template:
strings render verbatim, integers in decimal, lists in `[a, b]` form. -/
def pyStr : Value → String
  | .str s => s
  | .int n => toString n
  | .listI xs => "[" ++ String.intercalate ", " (xs.map toString) ++ "]"

/-- Python truthiness for the value shapes in scope (`if edge_indices:`):
empty strings, zero, and empty lists are falsy. -/
def pyTruthy : Value → Bool
  | .str s => !s.isEmpty
  | .int n => n != 0
  | .listI xs => !xs.isEmpty

/-- Python `str.lower()` over the ASCII range the catalog's enumerated
values use (structurally recursive so that concrete runs reduce). -/
def pyToLower (s : String) : String := String.mk (s.data.map Char.toLower)

/-- Python `.lower()` on a parameter value: succeeds on strings, raises
`AttributeError` otherwise. -/
def pyLowerE : Value → Except PyError String
  | .str s => .ok (pyToLower s)
  | _ => .error (.attributeError "lower")

/-- Python iteration `for idx in value`: lists yield their elements, strings
yield their characters, integers are not iterable. -/
def pyIterate : Value → Except PyError (List Value)
  | .listI xs => .ok (xs.map (fun n => Value.int n))
  | .str s => .ok (s.data.map (fun c => Value.str (String.singleton c)))
  | .int _ => .error (.typeError "int object is not iterable")

/-- Python whitespace characters recognised by `str.strip()`. -/
def pyIsSpace (c : Char) : Bool :=
  c == ' ' || c == '\n' || c == '\t' || c == '\r' || c == '\x0b' || c == '\x0c'

/-- Python `str.strip()`: drop leading and trailing whitespace. -/
def pyStrip (s : String) : String :=
  String.mk (((s.data.dropWhile pyIsSpace).reverse.dropWhile pyIsSpace).reverse)

/-- Helper for `str.split("\n")`: accumulate the current line (reversed) and
emit a line at every newline; like Python, the result always has one more
entry than there are newlines. -/
def splitLinesGo : List Char → List Char → List String
  | [], acc => [String.mk acc.reverse]
  | c :: cs, acc =>
    if c == '\n' then String.mk acc.reverse :: splitLinesGo cs []
    else splitLinesGo cs (c :: acc)

/-- Python `str.split("\n")` as used on line 163 of script_generator.py. -/
def splitNewlines (s : String) : List String := splitLinesGo s.data []

/-- One step of Python `str.format` evaluation over the remaining character
list. The fuel argument is an upper bound on the recursion depth (each step
consumes at least one character), so with fuel `length + 1` the fuel-exhausted
branch is unreachable. Placeholders are plain names, as in the repository's
templates; `\x7b\x7b` and `\x7d\x7d` escape literal braces; a placeholder with
no matching key raises `KeyError`, unmatched braces raise `ValueError`. -/
def pyFormatGo (d : Dict) : Nat → List Char → Except PyError String
  | 0, _ => .error (.valueError "format: out of fuel")
  | _, [] => .ok ""
  | fuel + 1, c :: cs =>
    if c == '\x7b' then
      match cs with
      | '\x7b' :: rest => (pyFormatGo d fuel rest).map (fun s => "\x7b" ++ s)
      | _ =>
        let name := cs.takeWhile (fun ch => ch != '\x7d')
        match cs.dropWhile (fun ch => ch != '\x7d') with
        | '\x7d' :: rest2 =>
          match dictGet d (String.mk name) with
          | some v => (pyFormatGo d fuel rest2).map (fun s => pyStr v ++ s)
          | none => .error (.keyError (String.mk name))
        | _ => .error (.valueError "Single \x7b encountered in format string")
    else if c == '\x7d' then
      match cs with
      | '\x7d' :: rest => (pyFormatGo d fuel rest).map (fun s => "\x7d" ++ s)
      | _ => .error (.valueError "Single \x7d encountered in format string")
    else
      (pyFormatGo d fuel cs).map (fun s => String.singleton c ++ s)

/-- Python `template.format(**d)` restricted to the plain named placeholders
the repository's templates use. -/
def pyFormat (template : String) (d : Dict) : Except PyError String :=
  pyFormatGo d (template.data.length + 1) template.data

/-- A ParameterSpec from the tool registry: a JSON type name, a description,
and an optional default. Absence of a default means the parameter is
required. -/
structure ParamSpec where
  type : String
  description : String
  default : Option Value
deriving DecidableEq, Repr

/-- A ToolDescriptor from the tool registry: name, description, ordered
parameter schema, documentation link. -/
structure Tool where
  name : String
  description : String
  parameters : List (String × ParamSpec)
  docs : String
deriving DecidableEq, Repr

/-- The `TOOLS_BY_NAME` lookup dictionary built by script_generator.py from
the registry list (`{tool["name"]: tool for tool in TOOL_REGISTRY}`): on
duplicate names the later entry wins, hence the reversed search. -/
def TOOLS_BY_NAME (registry : List Tool) (tool_name : String) : Option Tool :=
  registry.reverse.find? (fun t => t.name == tool_name)

/-- Parameters of a tool that have no default and therefore must be supplied
by the caller (spec §3: absence of `default` means required). -/
def requiredKeys (t : Tool) : List String :=
  (t.parameters.filter (fun p => p.2.default == none)).map (fun p => p.1)

/-- Modelled from the spec: src/src/tool_registry.json — the catalog source
loaded at process start — is not present under src/ (only its loader and
callers are). The catalog is reconstructed from the spec: §3's ParameterSpec
shape, §8's scenario C (`Extrude`'s declared defaults `profile_index = 0` and
`operation = "new"`; `DrawRectangle` callable with only `width`/`depth`;
`Extrude` callable with only `height`), the documented enumerated-option
defaults (`plane = "xy"`, `operation = "new"`/`"join"`, `format = "stl"`),
index-list parameters defaulting to empty arrays (§8 scenario D), and the
remaining placeholders of each registered template (origin/center/axis
coordinates and body indices defaulting to numbers, size-like parameters
required). Description and docs fields are informational only and never read
by the generator. -/
def TOOL_REGISTRY : List Tool := [
  ⟨"CreateSketch", "Creates a new sketch on a specified plane.",
    [("plane", ⟨"string", "The plane to create the sketch on.", some (.str "xy")⟩)],
    "sketches"⟩,
  ⟨"DrawRectangle", "Draws a rectangle in the active sketch.",
    [("width", ⟨"number", "Width of the rectangle.", none⟩),
     ("depth", ⟨"number", "Depth of the rectangle.", none⟩),
     ("origin_x", ⟨"number", "X coordinate of the origin.", some (.int 0)⟩),
     ("origin_y", ⟨"number", "Y coordinate of the origin.", some (.int 0)⟩),
     ("origin_z", ⟨"number", "Z coordinate of the origin.", some (.int 0)⟩)],
    "sketchLines"⟩,
  ⟨"DrawCircle", "Draws a circle in the active sketch.",
    [("center_x", ⟨"number", "X coordinate of the center.", some (.int 0)⟩),
     ("center_y", ⟨"number", "Y coordinate of the center.", some (.int 0)⟩),
     ("center_z", ⟨"number", "Z coordinate of the center.", some (.int 0)⟩),
     ("radius", ⟨"number", "Radius of the circle.", none⟩)],
    "sketchCircles"⟩,
  ⟨"Extrude", "Extrudes a profile into a 3D shape.",
    [("profile_index", ⟨"integer", "Index of the profile to extrude.", some (.int 0)⟩),
     ("height", ⟨"number", "Height of the extrusion.", none⟩),
     ("operation", ⟨"string", "The operation type.", some (.str "new")⟩)],
    "extrudeFeatures"⟩,
  ⟨"Revolve", "Revolves a profile around an axis.",
    [("profile_index", ⟨"integer", "Index of the profile to revolve.", some (.int 0)⟩),
     ("axis_origin_x", ⟨"number", "X coordinate of the axis origin.", some (.int 0)⟩),
     ("axis_origin_y", ⟨"number", "Y coordinate of the axis origin.", some (.int 0)⟩),
     ("axis_origin_z", ⟨"number", "Z coordinate of the axis origin.", some (.int 0)⟩),
     ("axis_direction_x", ⟨"number", "X component of the axis direction.", some (.int 1)⟩),
     ("axis_direction_y", ⟨"number", "Y component of the axis direction.", some (.int 0)⟩),
     ("axis_direction_z", ⟨"number", "Z component of the axis direction.", some (.int 0)⟩),
     ("angle", ⟨"number", "Angle of revolution in degrees.", some (.int 360)⟩),
     ("operation", ⟨"string", "The operation type.", some (.str "new")⟩)],
    "revolveFeatures"⟩,
  ⟨"Fillet", "Adds a fillet to selected edges.",
    [("body_index", ⟨"integer", "Index of the body.", some (.int 0)⟩),
     ("edge_indices", ⟨"array", "Indices of the edges to fillet.", some (.listI [])⟩),
     ("radius", ⟨"number", "Radius of the fillet.", none⟩)],
    "filletFeatures"⟩,
  ⟨"Chamfer", "Adds a chamfer to selected edges.",
    [("body_index", ⟨"integer", "Index of the body.", some (.int 0)⟩),
     ("edge_indices", ⟨"array", "Indices of the edges to chamfer.", some (.listI [])⟩),
     ("distance", ⟨"number", "Distance of the chamfer.", none⟩)],
    "chamferFeatures"⟩,
  ⟨"Shell", "Hollows out a solid body.",
    [("body_index", ⟨"integer", "Index of the body.", some (.int 0)⟩),
     ("face_indices", ⟨"array", "Indices of the faces to remove.", some (.listI [])⟩),
     ("thickness", ⟨"number", "Thickness of the shell.", none⟩)],
    "shellFeatures"⟩,
  ⟨"Combine", "Combines two bodies.",
    [("target_body_index", ⟨"integer", "Index of the target body.", some (.int 0)⟩),
     ("tool_body_index", ⟨"integer", "Index of the tool body.", some (.int 1)⟩),
     ("operation", ⟨"string", "The operation type.", some (.str "join")⟩)],
    "combineFeatures"⟩,
  ⟨"ExportBody", "Exports a body to a file.",
    [("body_index", ⟨"integer", "Index of the body to export.", some (.int 0)⟩),
     ("filename", ⟨"string", "Name of the exported file.", none⟩),
     ("format", ⟨"string", "Export file format.", some (.str "stl")⟩)],
    "exportManager"⟩]

/-- The `SCRIPT_TEMPLATES` table of script_generator.py, transcribed verbatim
(braces written as `\x7b`/`\x7d` escapes, quotes as `\x27`). -/
def SCRIPT_TEMPLATES : List (String × String) := [
  ("CreateSketch", "\n# Create a new sketch on the \x7bplane\x7d plane\nsketches = component.sketches\n\x7bplane_code\x7d\nsketch = sketches.add(\x7bplane_var\x7d)\n"),
  ("DrawRectangle", "\n# Draw a rectangle\nrectangle = sketch.sketchCurves.sketchLines.addTwoPointRectangle(\n    adsk.core.Point3D.create(\x7borigin_x\x7d, \x7borigin_y\x7d, \x7borigin_z\x7d),\n    adsk.core.Point3D.create(\x7borigin_x\x7d + \x7bwidth\x7d, \x7borigin_y\x7d + \x7bdepth\x7d, \x7borigin_z\x7d)\n)\n"),
  ("DrawCircle", "\n# Draw a circle\ncircle = sketch.sketchCurves.sketchCircles.addByCenterRadius(\n    adsk.core.Point3D.create(\x7bcenter_x\x7d, \x7bcenter_y\x7d, \x7bcenter_z\x7d),\n    \x7bradius\x7d\n)\n"),
  ("Extrude", "\n# Extrude the profile\nprof = sketch.profiles.item(\x7bprofile_index\x7d)\nextrudes = component.features.extrudeFeatures\nextInput = extrudes.createInput(prof, adsk.fusion.FeatureOperations.\x7boperation_code\x7dFeatureOperation)\ndistance = adsk.core.ValueInput.createByReal(\x7bheight\x7d)\nextInput.setDistanceExtent(False, distance)\nextrude = extrudes.add(extInput)\n"),
  ("Revolve", "\n# Revolve the profile\nprof = sketch.profiles.item(\x7bprofile_index\x7d)\nrevolves = component.features.revolveFeatures\nrevInput = revolves.createInput(prof, adsk.fusion.FeatureOperations.\x7boperation_code\x7dFeatureOperation)\naxis = adsk.core.Line3D.create(\n    adsk.core.Point3D.create(\x7baxis_origin_x\x7d, \x7baxis_origin_y\x7d, \x7baxis_origin_z\x7d),\n    adsk.core.Vector3D.create(\x7baxis_direction_x\x7d, \x7baxis_direction_y\x7d, \x7baxis_direction_z\x7d)\n)\nrevInput.setRevolutionExtent(False, adsk.core.ValueInput.createByString(\"\x7bangle\x7d deg\"))\nrevInput.revolutionAxis = axis\nrevolve = revolves.add(revInput)\n"),
  ("Fillet", "\n# Fillet edges\nfillets = component.features.filletFeatures\nedgeCollection = adsk.core.ObjectCollection.create()\nbody = component.bRepBodies.item(\x7bbody_index\x7d)\n\x7bedge_collection_code\x7d\nfilletInput = fillets.createInput()\nfilletInput.addConstantRadiusEdgeSet(edgeCollection, adsk.core.ValueInput.createByReal(\x7bradius\x7d), True)\nfillet = fillets.add(filletInput)\n"),
  ("Chamfer", "\n# Chamfer edges\nchamfers = component.features.chamferFeatures\nedgeCollection = adsk.core.ObjectCollection.create()\nbody = component.bRepBodies.item(\x7bbody_index\x7d)\n\x7bedge_collection_code\x7d\nchamferInput = chamfers.createInput(edgeCollection, True)\nchamferInput.setToEqualDistance(adsk.core.ValueInput.createByReal(\x7bdistance\x7d))\nchamfer = chamfers.add(chamferInput)\n"),
  ("Shell", "\n# Shell the body\nshells = component.features.shellFeatures\nbody = component.bRepBodies.item(\x7bbody_index\x7d)\nfaceCollection = adsk.core.ObjectCollection.create()\n\x7bface_collection_code\x7d\nshellInput = shells.createInput([body], faceCollection)\nshellInput.insideThickness = adsk.core.ValueInput.createByReal(\x7bthickness\x7d)\nshell = shells.add(shellInput)\n"),
  ("Combine", "\n# Combine bodies\ncombines = component.features.combineFeatures\ntargetBody = component.bRepBodies.item(\x7btarget_body_index\x7d)\ntoolBodies = adsk.core.ObjectCollection.create()\ntoolBody = component.bRepBodies.item(\x7btool_body_index\x7d)\ntoolBodies.add(toolBody)\ncombineInput = combines.createInput(targetBody, toolBodies)\ncombineInput.operation = adsk.fusion.FeatureOperations.\x7boperation_code\x7dFeatureOperation\ncombine = combines.add(combineInput)\n"),
  ("ExportBody", "\n# Export body\nbody = component.bRepBodies.item(\x7bbody_index\x7d)\nexportMgr = adsk.fusion.ExportManager.cast(design.exportManager)\n\x7bexport_options_code\x7d\nexportMgr.execute(\x27\x7bfilename\x7d\x27, \x27\x7bdirectory\x7d\x27, options)\n")]

/-- `SCRIPT_TEMPLATES.get(tool_name)`. -/
def templatesGet (tool_name : String) : Option String :=
  (SCRIPT_TEMPLATES.find? (fun kv => kv.1 == tool_name)).map (fun kv => kv.2)

/-- The `BASE_SCRIPT_TEMPLATE` outer scaffold of script_generator.py,
transcribed verbatim (the Python source's `\x7b\x7b\x7d\x7d` escape is kept
so that format produces a literal brace pair). -/
def BASE_SCRIPT_TEMPLATE : String :=
  "import adsk.core, adsk.fusion, traceback\n\ndef run(context):\n    ui = None\n    try:\n        app = adsk.core.Application.get()\n        ui = app.userInterface\n        design = app.activeProduct\n        \n        # Get the active component in the design\n        component = design.rootComponent\n        \n\x7btool_scripts\x7d\n        \n        ui.messageBox(\x27Operation completed successfully\x27)\n    except:\n        if ui:\n            ui.messageBox(\x27Failed:\\n\x7b\x7b\x7d\x7d\x27.format(traceback.format_exc()))\n"

/-- The value of `os.path.expanduser("~/Desktop")` in script_generator.py:
an environment-dependent but fixed path, treated as a constant; none of the
claims depends on its exact text, only on its being the single value the
derivation stores under `directory`. -/
def desktop_path : String := "~/Desktop"

/-- The defaulting loop of `_process_parameters` (lines 185-187): for every
registry parameter that has a default and is absent from the mapping, insert
the default; iteration follows the registry's declaration order. -/
def applyDefaults (d : Dict) : List (String × ParamSpec) → Dict
  | [] => d
  | (k, spec) :: rest =>
    applyDefaults
      (if dictGet d k = none then
        match spec.default with
        | some v => dictSet d k v
        | none => d
      else d)
      rest

/-- The fallback loop fragment substituted for an empty `edge_indices` list
(Fillet and Chamfer). -/
def edgeLoopAllCode : String := "for edge in body.edges:\n    edgeCollection.add(edge)"

/-- The fallback comment substituted for an empty `face_indices` list
(Shell). -/
def shellNoFacesCode : String := "# No faces selected for removal"

/-- The per-index edge collection lines built by the Fillet and Chamfer
branches. -/
def edgeCollectionLines (vals : List Value) : String :=
  String.intercalate "\n"
    (vals.foldr
      (fun idx acc =>
        ("edge = body.edges.item(" ++ pyStr idx ++ ")") :: "edgeCollection.add(edge)" :: acc)
      [])

/-- The per-index face collection lines built by the Shell branch. -/
def faceCollectionLines (vals : List Value) : String :=
  String.intercalate "\n"
    (vals.foldr
      (fun idx acc =>
        ("face = body.faces.item(" ++ pyStr idx ++ ")") :: "faceCollection.add(face)" :: acc)
      [])

/-- The tool-specific derivation chain of `_process_parameters`
(lines 189-292 of script_generator.py): dispatch on the tool name, map
enumerated options case-insensitively to internal codes (rejecting values
outside the accepted set with a `ValueError` naming the lowered value and the
accepted set), synthesize collection sub-fragments from index lists (with the
per-tool fallback when the list is empty or falsy), and for `ExportBody`
always set `directory` to the desktop path. -/
def deriveBranch (tool_name : String) (processed : Dict) : Except PyError Dict :=
  if tool_name == "CreateSketch" then do
    let plane ← pyLowerE ((dictGet processed "plane").getD (.str "xy"))
    if plane == "xy" then
      pure (dictSet (dictSet processed "plane_code" (.str "xyPlane = component.xYConstructionPlane")) "plane_var" (.str "xyPlane"))
    else if plane == "yz" then
      pure (dictSet (dictSet processed "plane_code" (.str "yzPlane = component.yZConstructionPlane")) "plane_var" (.str "yzPlane"))
    else if plane == "xz" then
      pure (dictSet (dictSet processed "plane_code" (.str "xzPlane = component.xZConstructionPlane")) "plane_var" (.str "xzPlane"))
    else
      throw (.valueError ("Invalid plane: " ++ plane ++ ". Must be one of: xy, yz, xz"))
  else if tool_name == "Extrude" then do
    let operation ← pyLowerE ((dictGet processed "operation").getD (.str "new"))
    if operation == "new" then
      pure (dictSet processed "operation_code" (.str "NewBody"))
    else if operation == "join" then
      pure (dictSet processed "operation_code" (.str "JoinFeature"))
    else if operation == "cut" then
      pure (dictSet processed "operation_code" (.str "CutFeature"))
    else if operation == "intersect" then
      pure (dictSet processed "operation_code" (.str "IntersectFeature"))
    else
      throw (.valueError ("Invalid operation: " ++ operation ++ ". Must be one of: new, join, cut, intersect"))
  else if tool_name == "Revolve" then do
    let operation ← pyLowerE ((dictGet processed "operation").getD (.str "new"))
    if operation == "new" then
      pure (dictSet processed "operation_code" (.str "NewBody"))
    else if operation == "join" then
      pure (dictSet processed "operation_code" (.str "JoinFeature"))
    else if operation == "cut" then
      pure (dictSet processed "operation_code" (.str "CutFeature"))
    else if operation == "intersect" then
      pure (dictSet processed "operation_code" (.str "IntersectFeature"))
    else
      throw (.valueError ("Invalid operation: " ++ operation ++ ". Must be one of: new, join, cut, intersect"))
  else if tool_name == "Fillet" then
    let edge_indices := (dictGet processed "edge_indices").getD (.listI [])
    if pyTruthy edge_indices then do
      let vals ← pyIterate edge_indices
      pure (dictSet processed "edge_collection_code" (.str (edgeCollectionLines vals)))
    else
      pure (dictSet processed "edge_collection_code" (.str edgeLoopAllCode))
  else if tool_name == "Chamfer" then
    let edge_indices := (dictGet processed "edge_indices").getD (.listI [])
    if pyTruthy edge_indices then do
      let vals ← pyIterate edge_indices
      pure (dictSet processed "edge_collection_code" (.str (edgeCollectionLines vals)))
    else
      pure (dictSet processed "edge_collection_code" (.str edgeLoopAllCode))
  else if tool_name == "Shell" then
    let face_indices := (dictGet processed "face_indices").getD (.listI [])
    if pyTruthy face_indices then do
      let vals ← pyIterate face_indices
      pure (dictSet processed "face_collection_code" (.str (faceCollectionLines vals)))
    else
      pure (dictSet processed "face_collection_code" (.str shellNoFacesCode))
  else if tool_name == "Combine" then do
    let operation ← pyLowerE ((dictGet processed "operation").getD (.str "join"))
    if operation == "join" then
      pure (dictSet processed "operation_code" (.str "JoinFeature"))
    else if operation == "cut" then
      pure (dictSet processed "operation_code" (.str "CutFeature"))
    else if operation == "intersect" then
      pure (dictSet processed "operation_code" (.str "IntersectFeature"))
    else
      throw (.valueError ("Invalid operation: " ++ operation ++ ". Must be one of: join, cut, intersect"))
  else if tool_name == "ExportBody" then do
    let format ← pyLowerE ((dictGet processed "format").getD (.str "stl"))
    let withOptions ←
      if format == "stl" then
        pure (dictSet processed "export_options_code" (.str "options = exportMgr.createSTLExportOptions(body)"))
      else if format == "obj" then
        pure (dictSet processed "export_options_code" (.str "options = exportMgr.createOBJExportOptions(body)"))
      else if format == "step" then
        pure (dictSet processed "export_options_code" (.str "options = exportMgr.createSTEPExportOptions()"))
      else if format == "iges" then
        pure (dictSet processed "export_options_code" (.str "options = exportMgr.createIGESExportOptions()"))
      else if format == "sat" then
        pure (dictSet processed "export_options_code" (.str "options = exportMgr.createSATExportOptions()"))
      else
        throw (.valueError ("Invalid format: " ++ format ++ ". Must be one of: stl, obj, step, iges, sat"))
    pure (dictSet withOptions "directory" (.str desktop_path))
  else
    pure processed

/-- `_process_parameters(tool_name, parameters)` of script_generator.py at
the level of dict values: start from a copy of the caller's mapping, look the
tool up in `TOOLS_BY_NAME` (Python dict subscript: `KeyError` when absent),
fill declared defaults unconditionally, then run the tool-specific derivation
chain. -/
def _process_parameters (registry : List Tool) (tool_name : String) (parameters : Dict) :
    Except PyError Dict :=
  match TOOLS_BY_NAME registry tool_name with
  | none => .error (.keyError tool_name)
  | some tool => deriveBranch tool_name (applyDefaults parameters tool.parameters)

/-- Indent a fragment for inclusion in the base template (line 163 of
script_generator.py): strip, split on newlines, and prefix eight spaces to
every line. -/
def indentScript (s : String) : String :=
  String.intercalate "\n" ((splitNewlines (pyStrip s)).map (fun line => "        " ++ line))

/-- The per-call fragment pipeline shared by `generate_script` and the loop
body of `generate_multi_tool_script`: unknown-tool check, template
lookup/check (Python truthiness: a missing or empty template raises), then
parameter processing and template substitution. -/
def fragGen (registry : List Tool) (tool_name : String) (parameters : Dict) :
    Except PyError String := do
  if (TOOLS_BY_NAME registry tool_name).isNone then
    throw (.valueError ("Unknown tool: " ++ tool_name))
  let template := (templatesGet tool_name).getD ""
  if template.isEmpty then
    throw (.valueError ("No script template available for tool: " ++ tool_name))
  let processed ← _process_parameters registry tool_name parameters
  pyFormat template processed

/-- Wrap a (possibly multi-fragment) script body in the outer scaffold:
indent the stripped body and substitute it for `tool_scripts` in
`BASE_SCRIPT_TEMPLATE`. -/
def wrapProgram (body : String) : Except PyError String :=
  pyFormat BASE_SCRIPT_TEMPLATE [("tool_scripts", Value.str (indentScript body))]

/-- `generate_script(tool_name, parameters)` of script_generator.py
(lines 136-168): validate the tool and template, process parameters, expand
the fragment, indent it, and wrap it in the base template. -/
def generate_script (registry : List Tool) (tool_name : String) (parameters : Dict) :
    Except PyError String := do
  if (TOOLS_BY_NAME registry tool_name).isNone then
    throw (.valueError ("Unknown tool: " ++ tool_name))
  let template := (templatesGet tool_name).getD ""
  if template.isEmpty then
    throw (.valueError ("No script template available for tool: " ++ tool_name))
  let processed ← _process_parameters registry tool_name parameters
  let tool_script ← pyFormat template processed
  let indented := indentScript tool_script
  pyFormat BASE_SCRIPT_TEMPLATE [("tool_scripts", Value.str indented)]

/-- One entry of the `tool_calls` list accepted by
`generate_multi_tool_script`: a mapping with `tool_name` and `parameters`
keys (the HTTP façade always constructs both). -/
structure ToolCall where
  tool_name : String
  parameters : Dict
deriving DecidableEq, Repr

/-- The loop of `generate_multi_tool_script` (lines 306-319): run the
per-call checks, processing and substitution for each call in order,
collecting the fragments; the first failure aborts the whole loop. -/
def scriptsLoop (registry : List Tool) : List ToolCall → Except PyError (List String)
  | [] => .ok []
  | call :: rest => do
    if (TOOLS_BY_NAME registry call.tool_name).isNone then
      throw (.valueError ("Unknown tool: " ++ call.tool_name))
    let template := (templatesGet call.tool_name).getD ""
    if template.isEmpty then
      throw (.valueError ("No script template available for tool: " ++ call.tool_name))
    let processed ← _process_parameters registry call.tool_name call.parameters
    let tool_script ← pyFormat template processed
    let others ← scriptsLoop registry rest
    pure (tool_script :: others)

/-- `generate_multi_tool_script(tool_calls)` of script_generator.py
(lines 294-330): collect one fragment per call in order, join them with
newlines, indent the stripped combination, and wrap it once in the base
template. -/
def generate_multi_tool_script (registry : List Tool) (tool_calls : List ToolCall) :
    Except PyError String := do
  let tool_scripts ← scriptsLoop registry tool_calls
  let combined := String.intercalate "\n" tool_scripts
  let indented := indentScript combined
  pyFormat BASE_SCRIPT_TEMPLATE [("tool_scripts", Value.str indented)]

/-- Python `str(exc)` for the exceptions the façade can see: `KeyError`
renders as the quoted key (its repr), the others as their message. -/
def pyErrorStr : PyError → String
  | .valueError msg => msg
  | .keyError key => "\x27" ++ key ++ "\x27"
  | .attributeError msg => msg
  | .typeError msg => msg

/-- Outcome of the HTTP façade: a successful script response or an
`HTTPException` with a status code and detail string. -/
inductive HttpResponse where
  | success (script : String)
  | failure (statusCode : Nat) (detail : String)
deriving DecidableEq, Repr

/-- The `/call_tool` endpoint of main.py (lines 94-103): `ValueError` maps to
a 400 client-fault response carrying the message, any other exception to a
500 server-fault response with an `Error generating script:` detail. -/
def call_tool (registry : List Tool) (tool_name : String) (parameters : Dict) : HttpResponse :=
  match generate_script registry tool_name parameters with
  | .ok script => .success script
  | .error (.valueError msg) => .failure 400 msg
  | .error e => .failure 500 ("Error generating script: " ++ pyErrorStr e)

/-!
Store-level semantics. The value-level `_process_parameters` above captures
what the function computes; the claims about mutation need the reference
structure of the Python code as well: `parameters` and `processed` are
references to heap-allocated dict objects, `processed = parameters.copy()`
allocates a fresh object, and every subsequent subscript assignment mutates
only the fresh object. The heap holds the dict objects reachable in
`_process_parameters`; a reference is an index into it. No statement of the
source mutates the interior of a parameter value (index lists are only read),
so dict cells are the only mutable objects that need modelling.
-/

/-- The mutable store: dict objects indexed by allocation order. -/
structure PyHeap where
  cells : List Dict
deriving DecidableEq, Repr

/-- A stateful Python computation over the dict store: it returns a normal
result or a raised exception, together with the store as it stands when
control leaves the function (Python exceptions do not roll back heap
effects). -/
def StM (α : Type) : Type := PyHeap → Except PyError α × PyHeap

/-- Return a value, leaving the store unchanged. -/
def stPure {α : Type} (a : α) : StM α := fun h => (.ok a, h)

/-- Sequence two stateful computations; a raised exception short-circuits
but keeps the store at the point of the raise. -/
def stBind {α β : Type} (m : StM α) (f : α → StM β) : StM β := fun h =>
  match m h with
  | (.ok a, h2) => f a h2
  | (.error e, h2) => (.error e, h2)

instance : Monad StM where
  pure := stPure
  bind := stBind

/-- Raise an exception. -/
def stThrow {α : Type} (e : PyError) : StM α := fun h => (.error e, h)

/-- Read the whole dict object behind a reference. -/
def stGetCell (r : Nat) : StM Dict := fun h => (.ok ((h.cells[r]?).getD []), h)

/-- `dict.copy()` / allocation: append a fresh dict object and return its
reference. -/
def stAlloc (d : Dict) : StM Nat := fun h => (.ok h.cells.length, ⟨h.cells ++ [d]⟩)

/-- Subscript read `obj[k]` / `obj.get(k)` through a reference. -/
def stGetKey (r : Nat) (k : String) : StM (Option Value) := fun h =>
  (.ok (dictGet ((h.cells[r]?).getD []) k), h)

/-- Subscript assignment `obj[k] = v` through a reference: mutates exactly
the referenced cell. -/
def stSetKey (r : Nat) (k : String) (v : Value) : StM Unit := fun h =>
  (.ok (), ⟨h.cells.set r (dictSet ((h.cells[r]?).getD []) k v)⟩)

/-- The defaulting loop of `_process_parameters` acting on the `processed`
object through its reference. -/
def applyDefaultsSt (r : Nat) : List (String × ParamSpec) → StM Unit
  | [] => stPure ()
  | (k, spec) :: rest => do
    let cur ← stGetKey r k
    if cur = none then
      match spec.default with
      | some v => stSetKey r k v
      | none => stPure ()
    else
      stPure ()
    applyDefaultsSt r rest

/-- The tool-specific derivation chain of `_process_parameters` acting on the
`processed` object through its reference (the store-level counterpart of
`deriveBranch`). -/
def deriveSt (r : Nat) (tool_name : String) : StM Unit :=
  if tool_name == "CreateSketch" then do
    let planeOpt ← stGetKey r "plane"
    match pyLowerE (planeOpt.getD (.str "xy")) with
    | .error e => stThrow e
    | .ok plane =>
      if plane == "xy" then do
        stSetKey r "plane_code" (.str "xyPlane = component.xYConstructionPlane")
        stSetKey r "plane_var" (.str "xyPlane")
      else if plane == "yz" then do
        stSetKey r "plane_code" (.str "yzPlane = component.yZConstructionPlane")
        stSetKey r "plane_var" (.str "yzPlane")
      else if plane == "xz" then do
        stSetKey r "plane_code" (.str "xzPlane = component.xZConstructionPlane")
        stSetKey r "plane_var" (.str "xzPlane")
      else
        stThrow (.valueError ("Invalid plane: " ++ plane ++ ". Must be one of: xy, yz, xz"))
  else if tool_name == "Extrude" then do
    let opOpt ← stGetKey r "operation"
    match pyLowerE (opOpt.getD (.str "new")) with
    | .error e => stThrow e
    | .ok operation =>
      if operation == "new" then
        stSetKey r "operation_code" (.str "NewBody")
      else if operation == "join" then
        stSetKey r "operation_code" (.str "JoinFeature")
      else if operation == "cut" then
        stSetKey r "operation_code" (.str "CutFeature")
      else if operation == "intersect" then
        stSetKey r "operation_code" (.str "IntersectFeature")
      else
        stThrow (.valueError ("Invalid operation: " ++ operation ++ ". Must be one of: new, join, cut, intersect"))
  else if tool_name == "Revolve" then do
    let opOpt ← stGetKey r "operation"
    match pyLowerE (opOpt.getD (.str "new")) with
    | .error e => stThrow e
    | .ok operation =>
      if operation == "new" then
        stSetKey r "operation_code" (.str "NewBody")
      else if operation == "join" then
        stSetKey r "operation_code" (.str "JoinFeature")
      else if operation == "cut" then
        stSetKey r "operation_code" (.str "CutFeature")
      else if operation == "intersect" then
        stSetKey r "operation_code" (.str "IntersectFeature")
      else
        stThrow (.valueError ("Invalid operation: " ++ operation ++ ". Must be one of: new, join, cut, intersect"))
  else if tool_name == "Fillet" then do
    let eiOpt ← stGetKey r "edge_indices"
    let edge_indices := eiOpt.getD (.listI [])
    if pyTruthy edge_indices then
      match pyIterate edge_indices with
      | .error e => stThrow e
      | .ok vals => stSetKey r "edge_collection_code" (.str (edgeCollectionLines vals))
    else
      stSetKey r "edge_collection_code" (.str edgeLoopAllCode)
  else if tool_name == "Chamfer" then do
    let eiOpt ← stGetKey r "edge_indices"
    let edge_indices := eiOpt.getD (.listI [])
    if pyTruthy edge_indices then
      match pyIterate edge_indices with
      | .error e => stThrow e
      | .ok vals => stSetKey r "edge_collection_code" (.str (edgeCollectionLines vals))
    else
      stSetKey r "edge_collection_code" (.str edgeLoopAllCode)
  else if tool_name == "Shell" then do
    let fiOpt ← stGetKey r "face_indices"
    let face_indices := fiOpt.getD (.listI [])
    if pyTruthy face_indices then
      match pyIterate face_indices with
      | .error e => stThrow e
      | .ok vals => stSetKey r "face_collection_code" (.str (faceCollectionLines vals))
    else
      stSetKey r "face_collection_code" (.str shellNoFacesCode)
  else if tool_name == "Combine" then do
    let opOpt ← stGetKey r "operation"
    match pyLowerE (opOpt.getD (.str "join")) with
    | .error e => stThrow e
    | .ok operation =>
      if operation == "join" then
        stSetKey r "operation_code" (.str "JoinFeature")
      else if operation == "cut" then
        stSetKey r "operation_code" (.str "CutFeature")
      else if operation == "intersect" then
        stSetKey r "operation_code" (.str "IntersectFeature")
      else
        stThrow (.valueError ("Invalid operation: " ++ operation ++ ". Must be one of: join, cut, intersect"))
  else if tool_name == "ExportBody" then do
    let fmtOpt ← stGetKey r "format"
    match pyLowerE (fmtOpt.getD (.str "stl")) with
    | .error e => stThrow e
    | .ok format =>
      do
        if format == "stl" then
          stSetKey r "export_options_code" (.str "options = exportMgr.createSTLExportOptions(body)")
        else if format == "obj" then
          stSetKey r "export_options_code" (.str "options = exportMgr.createOBJExportOptions(body)")
        else if format == "step" then
          stSetKey r "export_options_code" (.str "options = exportMgr.createSTEPExportOptions()")
        else if format == "iges" then
          stSetKey r "export_options_code" (.str "options = exportMgr.createIGESExportOptions()")
        else if format == "sat" then
          stSetKey r "export_options_code" (.str "options = exportMgr.createSATExportOptions()")
        else
          stThrow (.valueError ("Invalid format: " ++ format ++ ". Must be one of: stl, obj, step, iges, sat"))
        stSetKey r "directory" (.str desktop_path)
  else
    stPure ()

/-- `_process_parameters` at the store level: read the caller's dict through
its reference, allocate the defensive copy, look the tool up, fill defaults
and run the derivation on the copy, and return the reference to the copy. -/
def _process_parameters_st (registry : List Tool) (tool_name : String) (pRef : Nat) :
    StM Nat := do
  let params ← stGetCell pRef
  let procRef ← stAlloc params
  match TOOLS_BY_NAME registry tool_name with
  | none => stThrow (.keyError tool_name)
  | some tool => do
    applyDefaultsSt procRef tool.parameters
    deriveSt procRef tool_name
    stPure procRef

/-- A catalog extension exhibiting a descriptor with no registered template:
the modelled catalog plus one tool name absent from `SCRIPT_TEMPLATES`
(the spec treats such catalog/template drift as a reachable configuration,
and the registry file is data the operator can extend without touching the
engine). -/
def regOrphan : List Tool :=
  TOOL_REGISTRY ++ [⟨"OrphanTool", "A catalog entry with no registered template.", [], "none"⟩]

/-- A minimal catalog in which none of the enumerated-option parameters has
a catalog default: used to exhibit that the derivation fallbacks are
hard-coded and independent of catalog defaulting. -/
def regFallbacks : List Tool := [
  ⟨"CreateSketch", "sketch", [], "d"⟩,
  ⟨"Extrude", "extrude", [], "d"⟩,
  ⟨"Revolve", "revolve", [], "d"⟩,
  ⟨"Combine", "combine", [], "d"⟩,
  ⟨"ExportBody", "export", [("filename", ⟨"string", "file name", none⟩)], "d"⟩]

/-- Whether an `Except` result is a success. -/
def exceptOk {ε α : Type} : Except ε α → Bool
  | .ok _ => true
  | .error _ => false

theorem exists_ok_of_exceptOk {ε α : Type} {x : Except ε α} (h : exceptOk x = true) :
    ∃ a, x = .ok a := by
  cases x with
  | ok a => exact ⟨a, rfl⟩
  | error e => simp [exceptOk] at h

theorem dictGet_cons (k0 : String) (v0 : Value) (d : Dict) (k : String) :
    dictGet ((k0, v0) :: d) k = if k0 = k then some v0 else dictGet d k := by
  by_cases h : k0 = k
  · simp [dictGet, List.find?, h]
  · simp [dictGet, List.find?, h, beq_false_of_ne h]

theorem dictSet_cons (k0 : String) (v0 : Value) (d : Dict) (k : String) (v : Value) :
    dictSet ((k0, v0) :: d) k v =
      if k0 = k then (k, v) :: d else (k0, v0) :: dictSet d k v := by
  by_cases h : k0 = k
  · simp [dictSet, h]
  · simp [dictSet, h, beq_false_of_ne h]

theorem dictGet_dictSet_self (d : Dict) (k : String) (v : Value) :
    dictGet (dictSet d k v) k = some v := by
  induction d with
  | nil => simp [dictSet, dictGet, List.find?]
  | cons kv rest ih =>
    cases kv with
    | mk k0 v0 =>
      by_cases h : k0 = k
      · simp [dictSet_cons, h, dictGet_cons]
      · simp [dictSet_cons, h, dictGet_cons, ih]

theorem dictGet_dictSet_ne (d : Dict) (k k' : String) (v : Value) (h : k' ≠ k) :
    dictGet (dictSet d k' v) k = dictGet d k := by
  induction d with
  | nil => simp [dictSet, dictGet, List.find?, beq_false_of_ne h]
  | cons kv rest ih =>
    cases kv with
    | mk k0 v0 =>
      by_cases h0 : k0 = k'
      · have h2 : k0 ≠ k := h0 ▸ h
        simp [dictSet_cons, h0, dictGet_cons, h, h2]
      · simp only [dictSet_cons, h0, if_false, dictGet_cons, ih]

theorem dictSet_dictSet_same (d : Dict) (k : String) (v w : Value) :
    dictSet (dictSet d k v) k w = dictSet d k w := by
  induction d with
  | nil => simp [dictSet]
  | cons kv rest ih =>
    cases kv with
    | mk k0 v0 =>
      by_cases h0 : k0 = k
      · simp [dictSet_cons, h0]
      · simp [dictSet_cons, h0, ih]

theorem keys_dictSet (d : Dict) (k : String) (v : Value) :
    (dictSet d k v).map Prod.fst = if (dictGet d k).isSome then d.map Prod.fst
      else d.map Prod.fst ++ [k] := by
  induction d with
  | nil => simp [dictSet, dictGet, List.find?]
  | cons kv rest ih =>
    cases kv with
    | mk k0 v0 =>
      by_cases h0 : k0 = k
      · simp [dictSet_cons, h0, dictGet_cons]
      · simp only [dictSet_cons, h0, if_false, List.map_cons, ih, dictGet_cons]
        by_cases hs : (dictGet rest k).isSome <;> simp [hs]

theorem dictGet_applyDefaults_of_isSome (specs : List (String × ParamSpec)) (m : Dict)
    (k : String) (v : Value) (h : dictGet m k = some v) :
    dictGet (applyDefaults m specs) k = some v := by
  induction specs generalizing m with
  | nil => simpa [applyDefaults] using h
  | cons sp rest ih =>
    cases sp with
    | mk k0 s0 =>
      by_cases h0 : k0 = k
      · subst h0
        simp only [applyDefaults, h, reduceCtorEq, if_false]
        exact ih m h
      · simp only [applyDefaults]
        by_cases hn : dictGet m k0 = none
        · simp only [hn, if_true]
          cases hd : s0.default with
          | none => exact ih m h
          | some dv =>
            apply ih
            rw [dictGet_dictSet_ne _ _ _ _ h0]
            exact h
        · simp only [hn, if_false]
          exact ih m h

theorem dictGet_applyDefaults_of_not_key (specs : List (String × ParamSpec)) (m : Dict)
    (k : String) (h : ∀ sp ∈ specs, sp.1 ≠ k) :
    dictGet (applyDefaults m specs) k = dictGet m k := by
  induction specs generalizing m with
  | nil => simp [applyDefaults]
  | cons sp rest ih =>
    cases sp with
    | mk k0 s0 =>
      have hk0 : k0 ≠ k := h (k0, s0) (List.mem_cons_self _ _)
      have hrest : ∀ sp ∈ rest, sp.1 ≠ k := fun sp hsp => h sp (List.mem_cons_of_mem _ hsp)
      simp only [applyDefaults]
      by_cases hn : dictGet m k0 = none
      · simp only [hn, if_true]
        cases hd : s0.default with
        | none => exact ih m hrest
        | some dv =>
          rw [ih _ hrest, dictGet_dictSet_ne _ _ _ _ hk0]
      · simp only [hn, if_false]
        exact ih m hrest

theorem dictGet_applyDefaults_default (specs : List (String × ParamSpec)) (m : Dict)
    (k : String) (spec : ParamSpec) (dv : Value)
    (hmem : (k, spec) ∈ specs) (hdv : spec.default = some dv)
    (hnodup : (specs.map Prod.fst).Nodup) (habs : dictGet m k = none) :
    dictGet (applyDefaults m specs) k = some dv := by
  induction specs generalizing m with
  | nil => simp at hmem
  | cons sp rest ih =>
    cases sp with
    | mk k0 s0 =>
      rcases List.mem_cons.mp hmem with heq | hrest
      · cases heq
        simp only [applyDefaults, habs, if_true, hdv]
        exact dictGet_applyDefaults_of_isSome rest _ k dv (dictGet_dictSet_self m k dv)
      · have hk0 : k0 ≠ k := by
          intro hcon
          subst hcon
          have : k0 ∈ rest.map Prod.fst := List.mem_map.mpr ⟨(k0, spec), hrest, rfl⟩
          exact (List.nodup_cons.mp (by simpa using hnodup)).1 this
        have hnodup2 : (rest.map Prod.fst).Nodup := (List.nodup_cons.mp (by simpa using hnodup)).2
        simp only [applyDefaults]
        by_cases hn : dictGet m k0 = none
        · simp only [hn, if_true]
          cases hd : s0.default with
          | none => exact ih _ hrest hnodup2 habs
          | some dv0 =>
            apply ih _ hrest hnodup2
            rw [dictGet_dictSet_ne _ _ _ _ hk0]
            exact habs
        · simp only [hn, if_false]
          exact ih _ hrest hnodup2 habs

theorem generate_script_eq_fragGen (registry : List Tool) (tool_name : String)
    (parameters : Dict) :
    generate_script registry tool_name parameters =
      (fragGen registry tool_name parameters).bind wrapProgram := by
  unfold generate_script fragGen wrapProgram
  by_cases h1 : (TOOLS_BY_NAME registry tool_name).isNone
  · simp [h1, Bind.bind, Except.bind, throw, throwThe, MonadExceptOf.throw, pure, Except.pure]
  · simp only [h1, Bool.false_eq_true, if_false]
    by_cases h2 : ((templatesGet tool_name).getD "").isEmpty
    · simp [h2, Bind.bind, Except.bind, throw, throwThe, MonadExceptOf.throw, pure, Except.pure]
    · simp only [h2, Bool.false_eq_true, if_false]
      cases hp : _process_parameters registry tool_name parameters with
      | error e => simp [Bind.bind, Except.bind, hp, pure, Except.pure]
      | ok processed =>
        simp only [Bind.bind, Except.bind, hp, pure, Except.pure]

theorem scriptsLoop_cons (registry : List Tool) (call : ToolCall) (rest : List ToolCall) :
    scriptsLoop registry (call :: rest) =
      (fragGen registry call.tool_name call.parameters).bind
        (fun f => (scriptsLoop registry rest).map (fun others => f :: others)) := by
  conv_lhs => rw [scriptsLoop]
  unfold fragGen
  by_cases h1 : (TOOLS_BY_NAME registry call.tool_name).isNone
  · simp [h1, Bind.bind, Except.bind, throw, throwThe, MonadExceptOf.throw, pure, Except.pure]
  · simp only [h1, Bool.false_eq_true, if_false]
    by_cases h2 : ((templatesGet call.tool_name).getD "").isEmpty
    · simp [h2, Bind.bind, Except.bind, throw, throwThe, MonadExceptOf.throw, pure, Except.pure]
    · simp only [h2, Bool.false_eq_true, if_false]
      cases hp : _process_parameters registry call.tool_name call.parameters with
      | error e => simp [Bind.bind, Except.bind, hp, pure, Except.pure]
      | ok processed =>
        simp only [Bind.bind, Except.bind, hp, pure, Except.pure]
        cases hf : pyFormat ((templatesGet call.tool_name).getD "") processed with
        | error e => simp [pure, Except.pure]
        | ok frag =>
          cases hl : scriptsLoop registry rest with
          | error e => simp [hl, Except.map]
          | ok others => simp [hl, Except.map, pure, Except.pure]

theorem scriptsLoop_ok_of_forall (registry : List Tool) (calls : List ToolCall)
    (frags : List String)
    (h : List.Forall₂ (fun c f => fragGen registry c.tool_name c.parameters = .ok f) calls frags) :
    scriptsLoop registry calls = .ok frags := by
  induction h with
  | nil => rfl
  | cons hcf hrest ih =>
    rw [scriptsLoop_cons]
    rw [hcf, ih]
    rfl

theorem generate_multi_eq_wrap (registry : List Tool) (tool_calls : List ToolCall) :
    generate_multi_tool_script registry tool_calls =
      (scriptsLoop registry tool_calls).bind
        (fun scripts => wrapProgram (String.intercalate "\n" scripts)) := by
  unfold generate_multi_tool_script wrapProgram
  cases hl : scriptsLoop registry tool_calls with
  | error e => simp [Bind.bind, Except.bind, hl, pure, Except.pure]
  | ok scripts => simp [Bind.bind, Except.bind, hl, pure, Except.pure]

theorem stM_run_bind {α β : Type} (m : StM α) (f : α → StM β) (h : PyHeap) :
    (m >>= f) h = match m h with
      | (.ok a, h2) => f a h2
      | (.error e, h2) => (.error e, h2) := rfl

theorem stM_run_pure {α : Type} (a : α) (h : PyHeap) : (pure a : StM α) h = (.ok a, h) := rfl

theorem list_set_self {α : Type} (l : List α) (i : Nat) (a : α) (ha : l[i]? = some a) :
    l.set i a = l := by
  apply List.ext_getElem?
  intro j
  by_cases hj : i = j
  · subst hj
    have hz : i < l.length := by
      by_contra hcon
      rw [List.getElem?_eq_none (Nat.le_of_not_lt hcon)] at ha
      exact Option.noConfusion ha
    rw [List.getElem?_set_self hz, ha]
  · rw [List.getElem?_set_ne hj]

theorem applyDefaultsSt_run (specs : List (String × ParamSpec)) (r : Nat) (h : PyHeap)
    (hr : r < h.cells.length) :
    applyDefaultsSt r specs h =
      (.ok (), ⟨h.cells.set r (applyDefaults ((h.cells[r]?).getD []) specs)⟩) := by
  induction specs generalizing h with
  | nil =>
    have ⟨d, hd⟩ : ∃ d, h.cells[r]? = some d := ⟨_, List.getElem?_eq_getElem hr⟩
    simp only [applyDefaultsSt, stPure, applyDefaults, hd, Option.getD_some]
    rw [list_set_self _ _ _ hd]
  | cons sp rest ih =>
    cases sp with
    | mk k spec =>
      have ⟨d, hd⟩ : ∃ d, h.cells[r]? = some d := ⟨_, List.getElem?_eq_getElem hr⟩
      show (stGetKey r k >>= fun cur => _) h = _
      rw [stM_run_bind]
      simp only [stGetKey, hd, Option.getD_some]
      by_cases hn : dictGet d k = none
      · simp only [hn, if_true]
        cases hdv : spec.default with
        | some v =>
          show (stSetKey r k v >>= fun _ => applyDefaultsSt r rest) h = _
          rw [stM_run_bind]
          simp only [stSetKey, hd, Option.getD_some]
          have hr2 : r < (h.cells.set r (dictSet d k v)).length := by simpa using hr
          rw [ih ⟨h.cells.set r (dictSet d k v)⟩ hr2]
          simp only [List.getElem?_set_self hr, Option.getD_some, List.set_set]
          simp [applyDefaults, hd, hn, hdv]
        | none =>
          show (stPure () >>= fun _ => applyDefaultsSt r rest) h = _
          rw [stM_run_bind]
          simp only [stPure]
          rw [ih h hr]
          simp [applyDefaults, hd, hn, hdv]
      · simp only [hn, if_false]
        show (stPure () >>= fun _ => applyDefaultsSt r rest) h = _
        rw [stM_run_bind]
        simp only [stPure]
        rw [ih h hr]
        simp [applyDefaults, hd, hn]

theorem stSetKey_run (r : Nat) (k : String) (v : Value) (h : PyHeap) :
    stSetKey r k v h = (.ok (), ⟨h.cells.set r (dictSet ((h.cells[r]?).getD []) k v)⟩) := rfl

theorem st_set2_run (r : Nat) (k1 : String) (v1 : Value) (k2 : String) (v2 : Value)
    (h : PyHeap) (hr : r < h.cells.length) :
    stBind (stSetKey r k1 v1) (fun _ => stSetKey r k2 v2) h =
      (.ok (), ⟨h.cells.set r (dictSet (dictSet ((h.cells[r]?).getD []) k1 v1) k2 v2)⟩) := by
  rw [show stBind (stSetKey r k1 v1) (fun _ => stSetKey r k2 v2) h =
      (stSetKey r k1 v1 >>= fun _ => stSetKey r k2 v2) h from rfl]
  rw [stM_run_bind, stSetKey_run]
  simp only [stSetKey, List.getElem?_set_self hr, Option.getD_some, List.set_set]

theorem deriveSt_run (tool_name : String) (r : Nat) (h : PyHeap) (hr : r < h.cells.length) :
    deriveSt r tool_name h =
      match deriveBranch tool_name ((h.cells[r]?).getD []) with
      | .ok d2 => (.ok (), ⟨h.cells.set r d2⟩)
      | .error e => (.error e, h) := by
  obtain ⟨d, hd⟩ : ∃ d, h.cells[r]? = some d := ⟨_, List.getElem?_eq_getElem hr⟩
  simp only [hd, Option.getD_some]
  unfold deriveSt deriveBranch
  by_cases h1 : tool_name == "CreateSketch"
  · simp only [h1, if_true]
    rw [stM_run_bind]
    simp only [stGetKey, hd, Option.getD_some]
    cases hp : pyLowerE ((dictGet d "plane").getD (Value.str "xy")) with
    | error e => simp only [hp, Bind.bind, Except.bind, stThrow]
    | ok plane =>
      simp only [hp, Bind.bind, Except.bind]
      by_cases hv : plane == "xy"
      · simp only [hv, if_true]
        rw [st_set2_run _ _ _ _ _ _ hr]
        simp only [hd, Option.getD_some, pure, Except.pure]
      · simp only [hv, Bool.false_eq_true, if_false]
        by_cases hv2 : plane == "yz"
        · simp only [hv2, if_true]
          rw [st_set2_run _ _ _ _ _ _ hr]
          simp only [hd, Option.getD_some, pure, Except.pure]
        · simp only [hv2, Bool.false_eq_true, if_false]
          by_cases hv3 : plane == "xz"
          · simp only [hv3, if_true]
            rw [st_set2_run _ _ _ _ _ _ hr]
            simp only [hd, Option.getD_some, pure, Except.pure]
          · simp only [hv3, Bool.false_eq_true, if_false, stThrow, throw, throwThe,
              MonadExceptOf.throw]
  · simp only [h1, Bool.false_eq_true, if_false]
    by_cases h2 : tool_name == "Extrude"
    · simp only [h2, if_true]
      rw [stM_run_bind]
      simp only [stGetKey, hd, Option.getD_some]
      cases hp : pyLowerE ((dictGet d "operation").getD (Value.str "new")) with
      | error e => simp only [hp, Bind.bind, Except.bind, stThrow]
      | ok operation =>
        simp only [hp, Bind.bind, Except.bind]
        by_cases hv : operation == "new"
        · simp only [hv, if_true, stSetKey_run, hd, Option.getD_some, pure, Except.pure]
        · simp only [hv, Bool.false_eq_true, if_false]
          by_cases hv2 : operation == "join"
          · simp only [hv2, if_true, stSetKey_run, hd, Option.getD_some, pure, Except.pure]
          · simp only [hv2, Bool.false_eq_true, if_false]
            by_cases hv3 : operation == "cut"
            · simp only [hv3, if_true, stSetKey_run, hd, Option.getD_some, pure, Except.pure]
            · simp only [hv3, Bool.false_eq_true, if_false]
              by_cases hv4 : operation == "intersect"
              · simp only [hv4, if_true, stSetKey_run, hd, Option.getD_some, pure, Except.pure]
              · simp only [hv4, Bool.false_eq_true, if_false, stThrow, throw, throwThe,
                  MonadExceptOf.throw]
    · simp only [h2, Bool.false_eq_true, if_false]
      by_cases h3 : tool_name == "Revolve"
      · simp only [h3, if_true]
        rw [stM_run_bind]
        simp only [stGetKey, hd, Option.getD_some]
        cases hp : pyLowerE ((dictGet d "operation").getD (Value.str "new")) with
        | error e => simp only [hp, Bind.bind, Except.bind, stThrow]
        | ok operation =>
          simp only [hp, Bind.bind, Except.bind]
          by_cases hv : operation == "new"
          · simp only [hv, if_true, stSetKey_run, hd, Option.getD_some, pure, Except.pure]
          · simp only [hv, Bool.false_eq_true, if_false]
            by_cases hv2 : operation == "join"
            · simp only [hv2, if_true, stSetKey_run, hd, Option.getD_some, pure, Except.pure]
            · simp only [hv2, Bool.false_eq_true, if_false]
              by_cases hv3 : operation == "cut"
              · simp only [hv3, if_true, stSetKey_run, hd, Option.getD_some, pure, Except.pure]
              · simp only [hv3, Bool.false_eq_true, if_false]
                by_cases hv4 : operation == "intersect"
                · simp only [hv4, if_true, stSetKey_run, hd, Option.getD_some, pure, Except.pure]
                · simp only [hv4, Bool.false_eq_true, if_false, stThrow, throw, throwThe,
                    MonadExceptOf.throw]
      · simp only [h3, Bool.false_eq_true, if_false]
        by_cases h4 : tool_name == "Fillet"
        · simp only [h4, if_true]
          rw [stM_run_bind]
          simp only [stGetKey, hd, Option.getD_some]
          by_cases ht : pyTruthy ((dictGet d "edge_indices").getD (Value.listI []))
          · simp only [ht, if_true]
            cases hi : pyIterate ((dictGet d "edge_indices").getD (Value.listI [])) with
            | error e => simp only [hi, Bind.bind, Except.bind, stThrow]
            | ok vals =>
              simp only [hi, Bind.bind, Except.bind, stSetKey_run, hd, Option.getD_some,
                pure, Except.pure]
          · simp only [ht, Bool.false_eq_true, if_false, stSetKey_run, hd, Option.getD_some,
              pure, Except.pure]
        · simp only [h4, Bool.false_eq_true, if_false]
          by_cases h5 : tool_name == "Chamfer"
          · simp only [h5, if_true]
            rw [stM_run_bind]
            simp only [stGetKey, hd, Option.getD_some]
            by_cases ht : pyTruthy ((dictGet d "edge_indices").getD (Value.listI []))
            · simp only [ht, if_true]
              cases hi : pyIterate ((dictGet d "edge_indices").getD (Value.listI [])) with
              | error e => simp only [hi, Bind.bind, Except.bind, stThrow]
              | ok vals =>
                simp only [hi, Bind.bind, Except.bind, stSetKey_run, hd, Option.getD_some,
                  pure, Except.pure]
            · simp only [ht, Bool.false_eq_true, if_false, stSetKey_run, hd, Option.getD_some,
                pure, Except.pure]
          · simp only [h5, Bool.false_eq_true, if_false]
            by_cases h6 : tool_name == "Shell"
            · simp only [h6, if_true]
              rw [stM_run_bind]
              simp only [stGetKey, hd, Option.getD_some]
              by_cases ht : pyTruthy ((dictGet d "face_indices").getD (Value.listI []))
              · simp only [ht, if_true]
                cases hi : pyIterate ((dictGet d "face_indices").getD (Value.listI [])) with
                | error e => simp only [hi, Bind.bind, Except.bind, stThrow]
                | ok vals =>
                  simp only [hi, Bind.bind, Except.bind, stSetKey_run, hd, Option.getD_some,
                    pure, Except.pure]
              · simp only [ht, Bool.false_eq_true, if_false, stSetKey_run, hd, Option.getD_some,
                  pure, Except.pure]
            · simp only [h6, Bool.false_eq_true, if_false]
              by_cases h7 : tool_name == "Combine"
              · simp only [h7, if_true]
                rw [stM_run_bind]
                simp only [stGetKey, hd, Option.getD_some]
                cases hp : pyLowerE ((dictGet d "operation").getD (Value.str "join")) with
                | error e => simp only [hp, Bind.bind, Except.bind, stThrow]
                | ok operation =>
                  simp only [hp, Bind.bind, Except.bind]
                  by_cases hv : operation == "join"
                  · simp only [hv, if_true, stSetKey_run, hd, Option.getD_some, pure, Except.pure]
                  · simp only [hv, Bool.false_eq_true, if_false]
                    by_cases hv2 : operation == "cut"
                    · simp only [hv2, if_true, stSetKey_run, hd, Option.getD_some, pure,
                        Except.pure]
                    · simp only [hv2, Bool.false_eq_true, if_false]
                      by_cases hv3 : operation == "intersect"
                      · simp only [hv3, if_true, stSetKey_run, hd, Option.getD_some, pure,
                          Except.pure]
                      · simp only [hv3, Bool.false_eq_true, if_false, stThrow, throw, throwThe,
                          MonadExceptOf.throw]
              · simp only [h7, Bool.false_eq_true, if_false]
                by_cases h8 : tool_name == "ExportBody"
                · simp only [h8, if_true]
                  rw [stM_run_bind]
                  simp only [stGetKey, hd, Option.getD_some]
                  cases hp : pyLowerE ((dictGet d "format").getD (Value.str "stl")) with
                  | error e => simp only [hp, Bind.bind, Except.bind, stThrow]
                  | ok format =>
                    simp only [hp, Bind.bind, Except.bind]
                    by_cases hv : format == "stl"
                    · simp only [hv, if_true]
                      rw [st_set2_run _ _ _ _ _ _ hr]
                      simp only [hd, Option.getD_some, pure, Except.pure]
                    · simp only [hv, Bool.false_eq_true, if_false]
                      by_cases hv2 : format == "obj"
                      · simp only [hv2, if_true]
                        rw [st_set2_run _ _ _ _ _ _ hr]
                        simp only [hd, Option.getD_some, pure, Except.pure]
                      · simp only [hv2, Bool.false_eq_true, if_false]
                        by_cases hv3 : format == "step"
                        · simp only [hv3, if_true]
                          rw [st_set2_run _ _ _ _ _ _ hr]
                          simp only [hd, Option.getD_some, pure, Except.pure]
                        · simp only [hv3, Bool.false_eq_true, if_false]
                          by_cases hv4 : format == "iges"
                          · simp only [hv4, if_true]
                            rw [st_set2_run _ _ _ _ _ _ hr]
                            simp only [hd, Option.getD_some, pure, Except.pure]
                          · simp only [hv4, Bool.false_eq_true, if_false]
                            by_cases hv5 : format == "sat"
                            · simp only [hv5, if_true]
                              rw [st_set2_run _ _ _ _ _ _ hr]
                              simp only [hd, Option.getD_some, pure, Except.pure]
                            · simp only [hv5, Bool.false_eq_true, if_false, throw, throwThe,
                                MonadExceptOf.throw, Bind.bind, Except.bind]
                              rfl
                · simp only [h8, Bool.false_eq_true, if_false, stPure, pure, Except.pure]
                  rw [list_set_self _ _ _ hd]

theorem process_st_agrees (registry : List Tool) (tool_name : String) (d : Dict) :
    Except.map (fun r => ((((_process_parameters_st registry tool_name 0 ⟨[d]⟩).2).cells[r]?).getD []))
      ((_process_parameters_st registry tool_name 0 ⟨[d]⟩).1) =
    _process_parameters registry tool_name d := by
  unfold _process_parameters_st _process_parameters
  rw [stM_run_bind]
  simp only [stGetCell, List.getElem?_cons_zero, Option.getD_some]
  rw [stM_run_bind]
  simp only [stAlloc, List.length_singleton, List.singleton_append]
  cases hlook : TOOLS_BY_NAME registry tool_name with
  | none => simp [hlook, stThrow, Except.map]
  | some tool =>
    simp only [hlook]
    rw [stM_run_bind]
    rw [applyDefaultsSt_run tool.parameters 1 ⟨[d, d]⟩ (by simp)]
    simp only []
    rw [stM_run_bind]
    have h1 : (PyHeap.mk ([d, d].set 1 (applyDefaults (([d, d][1]?).getD []) tool.parameters))) =
        ⟨[d, applyDefaults d tool.parameters]⟩ := by
      simp [List.set]
    rw [h1]
    rw [deriveSt_run tool_name 1 ⟨[d, applyDefaults d tool.parameters]⟩ (by simp)]
    simp only []
    cases hb : deriveBranch tool_name (([d, applyDefaults d tool.parameters][1]?).getD []) with
    | error e =>
      simp only [List.getElem?_cons_succ, List.getElem?_cons_zero, Option.getD_some] at hb
      simp [hb, stThrow, Except.map]
    | ok d2 =>
      simp only [List.getElem?_cons_succ, List.getElem?_cons_zero, Option.getD_some] at hb
      simp [hb, stPure, Except.map, List.set]

theorem process_st_frame (registry : List Tool) (tool_name : String) (pRef : Nat) (h : PyHeap)
    (hp : pRef < h.cells.length) :
    ((_process_parameters_st registry tool_name pRef h).2).cells[pRef]? = h.cells[pRef]? := by
  unfold _process_parameters_st
  rw [stM_run_bind]
  simp only [stGetCell]
  rw [stM_run_bind]
  simp only [stAlloc]
  have hne : h.cells.length ≠ pRef := Nat.ne_of_gt hp
  have happ : ∀ x, ((h.cells ++ [x]) : List Dict)[pRef]? = h.cells[pRef]? := fun x =>
    List.getElem?_append_left hp
  cases hlook : TOOLS_BY_NAME registry tool_name with
  | none => simp [hlook, stThrow, happ]
  | some tool =>
    simp only [hlook]
    rw [stM_run_bind]
    rw [applyDefaultsSt_run tool.parameters h.cells.length ⟨h.cells ++ [(h.cells[pRef]?).getD []]⟩
      (by simp)]
    simp only []
    rw [stM_run_bind]
    rw [deriveSt_run tool_name h.cells.length _ (by simp)]
    cases hb : deriveBranch tool_name
        ((((h.cells ++ [(h.cells[pRef]?).getD []]).set h.cells.length
          (applyDefaults (((h.cells ++ [(h.cells[pRef]?).getD []])[h.cells.length]?).getD [])
            tool.parameters))[h.cells.length]?).getD []) with
    | error e =>
      simp only [hb, stThrow]
      rw [List.getElem?_set_ne hne, happ]
    | ok d2 =>
      simp only [hb, stPure]
      rw [List.set_set, List.getElem?_set_ne hne, happ]

theorem exceptOk_map {ε α β : Type} (f : α → β) (x : Except ε α) :
    exceptOk (Except.map f x) = exceptOk x := by
  cases x <;> rfl

theorem dictGet_isSome_of_keys_eq (d1 d2 : Dict) (h : d1.map Prod.fst = d2.map Prod.fst)
    (k : String) : (dictGet d1 k).isSome = (dictGet d2 k).isSome := by
  induction d1 generalizing d2 with
  | nil =>
    cases d2 with
    | nil => rfl
    | cons kv rest => exact absurd h (by simp)
  | cons kv rest ih =>
    cases d2 with
    | nil => exact absurd h (by simp)
    | cons kv2 rest2 =>
      simp only [List.map_cons, List.cons.injEq] at h
      cases kv with
      | mk k0 v0 =>
        cases kv2 with
        | mk k02 v02 =>
          simp only at h
          rw [dictGet_cons, dictGet_cons, ← h.1]
          by_cases hk : k0 = k
          · simp [hk]
          · simp only [hk, if_false]
            exact ih rest2 h.2

theorem pyFormatGo_isOk_congr (d1 d2 : Dict)
    (hdom : ∀ k, (dictGet d1 k).isSome = (dictGet d2 k).isSome) :
    ∀ (fuel : Nat) (cs : List Char),
      exceptOk (pyFormatGo d1 fuel cs) = exceptOk (pyFormatGo d2 fuel cs) := by
  intro fuel
  induction fuel with
  | zero => intro cs; cases cs <;> rfl
  | succ n ih =>
    intro cs
    cases cs with
    | nil => rfl
    | cons c rest =>
      simp only [pyFormatGo]
      by_cases hc : (c == '\x7b') = true
      · simp only [hc, if_true]
        split
        · rw [exceptOk_map, exceptOk_map]
          exact ih _
        · split
          · cases h1 : dictGet d1 (String.mk (rest.takeWhile (fun ch => ch != '\x7d'))) with
            | some v =>
              have h2 : (dictGet d2 (String.mk (rest.takeWhile (fun ch => ch != '\x7d')))).isSome =
                  true := by
                rw [← hdom]
                simp [h1]
              obtain ⟨w, hw⟩ := Option.isSome_iff_exists.mp h2
              rw [hw]
              rw [exceptOk_map, exceptOk_map]
              exact ih _
            | none =>
              have h2 : dictGet d2 (String.mk (rest.takeWhile (fun ch => ch != '\x7d'))) = none := by
                have := hdom (String.mk (rest.takeWhile (fun ch => ch != '\x7d')))
                rw [h1] at this
                simpa using this.symm
              rw [h2]
          · rfl
      · simp only [hc, Bool.false_eq_true, if_false]
        by_cases hc2 : (c == '\x7d') = true
        · simp only [hc2, if_true]
          split
          · rw [exceptOk_map, exceptOk_map]
            exact ih _
          · rfl
        · simp only [hc2, Bool.false_eq_true, if_false]
          rw [exceptOk_map, exceptOk_map]
          exact ih _

theorem pyFormat_isOk_congr (t : String) (d1 d2 : Dict)
    (hkeys : d1.map Prod.fst = d2.map Prod.fst) :
    exceptOk (pyFormat t d1) = exceptOk (pyFormat t d2) :=
  pyFormatGo_isOk_congr d1 d2 (dictGet_isSome_of_keys_eq d1 d2 hkeys) _ _

set_option maxRecDepth 100000

theorem wrapProgram_isOk (body : String) : exceptOk (wrapProgram body) = true := by
  unfold wrapProgram
  rw [pyFormat_isOk_congr BASE_SCRIPT_TEMPLATE
    [("tool_scripts", Value.str (indentScript body))] [("tool_scripts", Value.str "")] rfl]
  decide

theorem createSketch_process_eval (v : String) :
    _process_parameters TOOL_REGISTRY "CreateSketch" [("plane", Value.str v)] =
      if pyToLower v == "xy" then
        .ok [("plane", Value.str v),
          ("plane_code", Value.str "xyPlane = component.xYConstructionPlane"),
          ("plane_var", Value.str "xyPlane")]
      else if pyToLower v == "yz" then
        .ok [("plane", Value.str v),
          ("plane_code", Value.str "yzPlane = component.yZConstructionPlane"),
          ("plane_var", Value.str "yzPlane")]
      else if pyToLower v == "xz" then
        .ok [("plane", Value.str v),
          ("plane_code", Value.str "xzPlane = component.xZConstructionPlane"),
          ("plane_var", Value.str "xzPlane")]
      else
        .error (.valueError ("Invalid plane: " ++ pyToLower v ++ ". Must be one of: xy, yz, xz")) :=
  rfl

theorem assoc_shape_nil (m : Dict) (h : ∀ kv ∈ m, kv.1 ∈ ([] : List String)) : m = [] := by
  cases m with
  | nil => rfl
  | cons kv rest => exact absurd (h kv (List.mem_cons_self _ _)) (by simp)

theorem assoc_shape_one (m : Dict) (k : String) (h : ∀ kv ∈ m, kv.1 ∈ [k])
    (hnd : (m.map Prod.fst).Nodup) : m = [] ∨ ∃ v, m = [(k, v)] := by
  cases m with
  | nil => exact Or.inl rfl
  | cons kv rest =>
    right
    have hk : kv.1 = k := List.mem_singleton.mp (h kv (List.mem_cons_self _ _))
    rw [List.map_cons] at hnd
    have hhead : kv.1 ∉ rest.map Prod.fst := (List.nodup_cons.mp hnd).1
    have hrest : rest = [] := by
      cases rest with
      | nil => rfl
      | cons kv2 rest2 =>
        have hk2 : kv2.1 = k := List.mem_singleton.mp (h kv2 (by simp))
        exact absurd (List.mem_map.mpr ⟨kv2, by simp, by rw [hk2, ← hk]⟩) hhead
    subst hrest
    exact ⟨kv.2, by rw [← hk]⟩

theorem assoc_shape_two (m : Dict) (k1 k2 : String)
    (h : ∀ kv ∈ m, kv.1 ∈ [k1, k2]) (hnd : (m.map Prod.fst).Nodup) :
    m = [] ∨ (∃ v, m = [(k1, v)]) ∨ (∃ v, m = [(k2, v)]) ∨
      (∃ v w, m = [(k1, v), (k2, w)]) ∨ (∃ v w, m = [(k2, w), (k1, v)]) := by
  cases m with
  | nil => exact Or.inl rfl
  | cons kv rest =>
    rw [List.map_cons] at hnd
    have hnd2 : (rest.map Prod.fst).Nodup := (List.nodup_cons.mp hnd).2
    have hhead : kv.1 ∉ rest.map Prod.fst := (List.nodup_cons.mp hnd).1
    have hin : kv.1 = k1 ∨ kv.1 = k2 := by
      rcases List.mem_cons.mp (h kv (List.mem_cons_self _ _)) with ha | hb
      · exact Or.inl ha
      · exact Or.inr (List.mem_singleton.mp hb)
    rcases hin with h1 | h2
    · have hrestk : ∀ kv2 ∈ rest, kv2.1 ∈ [k2] := by
        intro kv2 hkv2
        rcases List.mem_cons.mp (h kv2 (by simp [hkv2])) with ha | hb
        · exact absurd (List.mem_map.mpr ⟨kv2, hkv2, by rw [ha, ← h1]⟩) hhead
        · exact hb
      rcases assoc_shape_one rest k2 hrestk hnd2 with hre | ⟨w, hre⟩
      · subst hre
        exact Or.inr (Or.inl ⟨kv.2, by rw [← h1]⟩)
      · subst hre
        exact Or.inr (Or.inr (Or.inr (Or.inl ⟨kv.2, w, by rw [← h1]⟩)))
    · have hrestk : ∀ kv2 ∈ rest, kv2.1 ∈ [k1] := by
        intro kv2 hkv2
        rcases List.mem_cons.mp (h kv2 (by simp [hkv2])) with ha | hb
        · simp [ha]
        · exact absurd (List.mem_map.mpr ⟨kv2, hkv2, by rw [List.mem_singleton.mp hb, ← h2]⟩)
            hhead
      rcases assoc_shape_one rest k1 hrestk hnd2 with hre | ⟨w, hre⟩
      · subst hre
        exact Or.inr (Or.inr (Or.inl ⟨kv.2, by rw [← h2]⟩))
      · subst hre
        exact Or.inr (Or.inr (Or.inr (Or.inr ⟨w, kv.2, by rw [← h2]⟩)))

theorem scriptsLoop_error_at (registry : List Tool) (calls : List ToolCall) (k : Nat)
    (e : PyError) (hk : k < calls.length)
    (hok : ∀ i (hi : i < k), ∃ f, fragGen registry (calls.get ⟨i, Nat.lt_trans hi hk⟩).tool_name
      (calls.get ⟨i, Nat.lt_trans hi hk⟩).parameters = .ok f)
    (herr : fragGen registry (calls.get ⟨k, hk⟩).tool_name
      (calls.get ⟨k, hk⟩).parameters = .error e) :
    scriptsLoop registry calls = .error e := by
  induction calls generalizing k with
  | nil => exact absurd hk (by simp)
  | cons c rest ih =>
    cases k with
    | zero =>
      rw [scriptsLoop_cons]
      simp only [List.get] at herr
      rw [herr]
      rfl
    | succ j =>
      obtain ⟨f0, hf0⟩ := hok 0 (Nat.succ_pos j)
      simp only [List.get] at hf0
      rw [scriptsLoop_cons, hf0]
      have hj : j < rest.length := by simpa using hk
      have hoki : ∀ i (hi : i < j), ∃ f, fragGen registry
          (rest.get ⟨i, Nat.lt_trans hi hj⟩).tool_name
          (rest.get ⟨i, Nat.lt_trans hi hj⟩).parameters = .ok f := by
        intro i hi
        have := hok (i + 1) (Nat.succ_lt_succ hi)
        simpa [List.get] using this
      have herri : fragGen registry (rest.get ⟨j, hj⟩).tool_name
          (rest.get ⟨j, hj⟩).parameters = .error e := by
        simpa [List.get] using herr
      rw [ih j hj hoki herri]
      rfl

theorem dictSet_overwrite_cancel (A : Dict) (k k2 : String) (v X w : Value)
    (hk : (dictGet A k).isSome) (hne : k ≠ k2) :
    dictSet (dictSet (dictSet A k v) k2 X) k w = dictSet (dictSet A k2 X) k w := by
  induction A with
  | nil => simp [dictGet] at hk
  | cons kv rest ih =>
    cases kv with
    | mk k1 u =>
      by_cases h1 : k1 = k
      · subst h1
        rw [dictSet_cons, if_pos rfl, dictSet_cons, if_neg hne, dictSet_cons, if_pos rfl,
          dictSet_cons, if_neg hne, dictSet_cons, if_pos rfl]
      · have hk2 : (dictGet rest k).isSome := by
          rw [dictGet_cons, if_neg h1] at hk
          exact hk
        by_cases h2 : k1 = k2
        · subst h2
          rw [dictSet_cons, if_neg h1, dictSet_cons, if_pos rfl, dictSet_cons, if_neg h1,
            dictSet_cons, if_pos rfl, dictSet_cons, if_neg h1, dictSet_dictSet_same]
        · rw [dictSet_cons, if_neg h1, dictSet_cons, if_neg h2, dictSet_cons, if_neg h1,
            dictSet_cons, if_neg h2, dictSet_cons, if_neg h1, ih hk2]

theorem dictSet_present_fresh_comm (M : Dict) (k k0 : String) (v dv : Value)
    (hk : (dictGet M k).isSome) (hk0 : dictGet M k0 = none) (hne : k0 ≠ k) :
    dictSet (dictSet M k v) k0 dv = dictSet (dictSet M k0 dv) k v := by
  induction M with
  | nil => simp [dictGet] at hk
  | cons kv rest ih =>
    cases kv with
    | mk k1 u =>
      have h10 : ¬ k1 = k0 := by
        intro hq
        rw [dictGet_cons, if_pos hq] at hk0
        exact Option.noConfusion hk0
      by_cases h1 : k1 = k
      · have hkk0 : ¬ k = k0 := fun hq => hne hq.symm
        rw [dictSet_cons, if_pos h1, dictSet_cons, if_neg hkk0,
          dictSet_cons, if_neg h10, dictSet_cons, if_pos h1]
      · have hk2 : (dictGet rest k).isSome := by
          rw [dictGet_cons, if_neg h1] at hk
          exact hk
        have hk02 : dictGet rest k0 = none := by
          rw [dictGet_cons, if_neg h10] at hk0
          exact hk0
        rw [dictSet_cons, if_neg h1, dictSet_cons, if_neg h10, dictSet_cons, if_neg h10,
          dictSet_cons, if_neg h1, ih hk2 hk02]

theorem applyDefaults_dictSet_present_comm (specs : List (String × ParamSpec)) (M : Dict)
    (k : String) (v : Value) (hk : (dictGet M k).isSome) (hspec : ∀ sp ∈ specs, sp.1 ≠ k) :
    applyDefaults (dictSet M k v) specs = dictSet (applyDefaults M specs) k v := by
  induction specs generalizing M with
  | nil => rfl
  | cons sp rest ih =>
    cases sp with
    | mk k0 s0 =>
      have hk0 : k0 ≠ k := hspec (k0, s0) (List.mem_cons_self _ _)
      have hrest : ∀ sp ∈ rest, sp.1 ≠ k := fun sp hsp => hspec sp (List.mem_cons_of_mem _ hsp)
      simp only [applyDefaults, dictGet_dictSet_ne M k0 k v hk0.symm]
      by_cases hn : dictGet M k0 = none
      · simp only [hn, if_true]
        cases hd : s0.default with
        | none =>
          simp only [hd]
          exact ih M hk hrest
        | some dv =>
          simp only [hd]
          rw [dictSet_present_fresh_comm M k k0 v dv hk hn hk0]
          have hset : (dictGet (dictSet M k0 dv) k).isSome := by
            rw [dictGet_dictSet_ne M k k0 dv hk0]
            exact hk
          exact ih (dictSet M k0 dv) hset hrest
      · simp only [hn, if_false]
        exact ih M hk hrest

/-- C1: the claimed behavior — a required parameter missing after defaulting
surfaces as a `MissingRequiredParameter` caller error — does not exist in the
code. `_process_parameters` performs no required-parameter check at all:
for `DrawCircle` (whose `radius` has no default) called with an empty
mapping, processing succeeds, the failure only appears later as a
`KeyError` for the unfilled `radius` placeholder during template
substitution, and the façade classifies that as a 500 internal error rather
than a caller error. -/
theorem c1_missing_required_parameter_behavior :
    _process_parameters TOOL_REGISTRY "DrawCircle" [] =
      .ok [("center_x", Value.int 0), ("center_y", Value.int 0), ("center_z", Value.int 0)] ∧
    generate_script TOOL_REGISTRY "DrawCircle" [] = .error (.keyError "radius") ∧
    call_tool TOOL_REGISTRY "DrawCircle" [] =
      .failure 500 ("Error generating script: \x27radius\x27") :=
  ⟨by decide, by decide, by decide⟩

/-- C2 counterexample: a catalog tool with no registered template is
reported through `call_tool` as a 400 caller-error response — the same
classification as the caller-error kinds — and not as a 500 internal
(server-fault) response, contradicting the claim that `UnknownTemplate` is
classified as an internal error. -/
theorem c2_counterexample :
    call_tool regOrphan "OrphanTool" [] =
      .failure 400 "No script template available for tool: OrphanTool" ∧
    ¬ ∃ detail, call_tool regOrphan "OrphanTool" [] = .failure 500 detail := by
  constructor
  · decide
  · rintro ⟨detail, hcon⟩
    rw [show call_tool regOrphan "OrphanTool" [] =
      .failure 400 "No script template available for tool: OrphanTool" from by decide] at hcon
    simp at hcon

/-- C2 amended: for every tool name that exists in the catalog but has no
registered template, `generate_script` fails with the UnknownTemplate
`ValueError` ("No script template available for tool: ..."), and the façade
classifies it as a 400 caller error — the same classification as
UnknownTool / MissingRequiredParameter / InvalidParameterValue — not as an
internal error (only non-ValueError exceptions such as
`TemplateSubstitutionError` key misses map to 500). -/
theorem c2_unknown_template_classified_as_caller_error (registry : List Tool)
    (tool_name : String) (parameters : Dict)
    (hcat : (TOOLS_BY_NAME registry tool_name).isSome = true)
    (htmpl : templatesGet tool_name = none) :
    generate_script registry tool_name parameters =
      .error (.valueError ("No script template available for tool: " ++ tool_name)) ∧
    call_tool registry tool_name parameters =
      .failure 400 ("No script template available for tool: " ++ tool_name) := by
  have h1 : (TOOLS_BY_NAME registry tool_name).isNone = false := by
    cases hx : TOOLS_BY_NAME registry tool_name with
    | none => rw [hx] at hcat; simp at hcat
    | some t => rfl
  have hgen : generate_script registry tool_name parameters =
      .error (.valueError ("No script template available for tool: " ++ tool_name)) := by
    unfold generate_script
    simp [h1, htmpl, Bind.bind, Except.bind, throw, throwThe, MonadExceptOf.throw,
      pure, Except.pure, show ("" : String).isEmpty = true from rfl]
  refine ⟨hgen, ?_⟩
  unfold call_tool
  rw [hgen]

theorem c2_witness :
    (TOOLS_BY_NAME regOrphan "OrphanTool").isSome = true ∧
    templatesGet "OrphanTool" = none ∧
    (generate_script regOrphan "OrphanTool" [] =
      .error (.valueError ("No script template available for tool: " ++ "OrphanTool")) ∧
    call_tool regOrphan "OrphanTool" [] =
      .failure 400 ("No script template available for tool: " ++ "OrphanTool")) :=
  ⟨by decide, by decide,
    c2_unknown_template_classified_as_caller_error regOrphan "OrphanTool" []
      (by decide) (by decide)⟩

/-- C3: for every ordered sequence of tool calls whose k-th call is the
first failing one (its per-call pipeline — unknown-tool check, template
check, parameter processing, template substitution — fails with error `e`
while every earlier call's pipeline succeeds), `generate_multi_tool_script`
fails with exactly that call's error; an `Except.error` result carries no
Program, so no partial output is produced. -/
theorem c3_generate_many_fails_with_first_error (registry : List Tool)
    (calls : List ToolCall) (k : Nat) (e : PyError) (hk : k < calls.length)
    (hok : ∀ i (hi : i < k), ∃ f, fragGen registry
      (calls.get ⟨i, Nat.lt_trans hi hk⟩).tool_name
      (calls.get ⟨i, Nat.lt_trans hi hk⟩).parameters = .ok f)
    (herr : fragGen registry (calls.get ⟨k, hk⟩).tool_name
      (calls.get ⟨k, hk⟩).parameters = .error e) :
    generate_multi_tool_script registry calls = .error e := by
  rw [generate_multi_eq_wrap, scriptsLoop_error_at registry calls k e hk hok herr]
  rfl

theorem c3_witness :
    generate_multi_tool_script TOOL_REGISTRY
      [⟨"CreateSketch", []⟩, ⟨"CreateSketch", [("plane", Value.str "diagonal")]⟩] =
      .error (.valueError "Invalid plane: diagonal. Must be one of: xy, yz, xz") := by
  refine c3_generate_many_fails_with_first_error TOOL_REGISTRY _ 1 _ (by decide) ?_ (by decide)
  intro i hi
  have h0 : i = 0 := by omega
  subst h0
  show ∃ f, fragGen TOOL_REGISTRY "CreateSketch" [] = .ok f
  exact exists_ok_of_exceptOk (by decide)

/-- C4: for every sequence of calls whose per-call fragment expansions all
succeed (yielding the fragments list in call order),
`generate_multi_tool_script` produces exactly the newline-concatenation of
those fragments in the caller-specified order, wrapped once in the outer
scaffold; and each fragment is precisely the one `generate_script` wraps for
the corresponding call on its own (order-preserving composition law). -/
theorem c4_generate_many_composition (registry : List Tool) (calls : List ToolCall)
    (frags : List String)
    (h : List.Forall₂ (fun c f => fragGen registry c.tool_name c.parameters = .ok f)
      calls frags) :
    generate_multi_tool_script registry calls =
      wrapProgram (String.intercalate "\n" frags) ∧
    ∀ c f, (c, f) ∈ calls.zip frags →
      generate_script registry c.tool_name c.parameters = wrapProgram f := by
  constructor
  · rw [generate_multi_eq_wrap, scriptsLoop_ok_of_forall registry calls frags h]
    rfl
  · intro c f hmem
    have hcf : fragGen registry c.tool_name c.parameters = .ok f :=
      (List.forall₂_iff_zip.mp h).2 hmem
    rw [generate_script_eq_fragGen, hcf]
    rfl

theorem c4_witness :
    generate_multi_tool_script TOOL_REGISTRY [⟨"CreateSketch", [("plane", Value.str "xy")]⟩] =
      wrapProgram (String.intercalate "\n"
        ["\n# Create a new sketch on the xy plane\nsketches = component.sketches\nxyPlane = component.xYConstructionPlane\nsketch = sketches.add(xyPlane)\n"]) ∧
    generate_script TOOL_REGISTRY "CreateSketch" [("plane", Value.str "xy")] =
      wrapProgram "\n# Create a new sketch on the xy plane\nsketches = component.sketches\nxyPlane = component.xYConstructionPlane\nsketch = sketches.add(xyPlane)\n" := by
  have h := c4_generate_many_composition TOOL_REGISTRY
    [⟨"CreateSketch", [("plane", Value.str "xy")]⟩]
    ["\n# Create a new sketch on the xy plane\nsketches = component.sketches\nxyPlane = component.xYConstructionPlane\nsketch = sketches.add(xyPlane)\n"]
    (List.Forall₂.cons (by decide) List.Forall₂.nil)
  exact ⟨h.1, h.2 ⟨"CreateSketch", [("plane", Value.str "xy")]⟩ _ (by simp)⟩

/-- C5 counterexample: for `Shell` with `face_indices` supplied as the empty
list, the substituted fallback is the no-op comment "# No faces selected for
removal", not an "apply to all" loop fragment like the one Fillet and
Chamfer substitute — so the claim's uniform "apply to all" fallback is false
for Shell. -/
theorem c5_counterexample :
    _process_parameters TOOL_REGISTRY "Shell" [("face_indices", Value.listI [])] =
      .ok [("face_indices", Value.listI []), ("body_index", Value.int 0),
        ("face_collection_code", Value.str "# No faces selected for removal")] ∧
    shellNoFacesCode ≠ "for face in body.faces:\n    faceCollection.add(face)" :=
  ⟨by decide, by decide⟩

/-- C5 amended: with the index-list parameter supplied as the empty list,
`process` succeeds for all three tools and substitutes each tool's own
documented fallback: Fillet and Chamfer substitute the "apply to all" loop
over every edge, while Shell substitutes the no-op comment "# No faces
selected for removal"; no error is raised. Stated over any catalog that
contains the tool. -/
theorem c5_empty_index_list_fallback (registry : List Tool) (m : Dict) :
    (∀ t, TOOLS_BY_NAME registry "Fillet" = some t →
      dictGet m "edge_indices" = some (Value.listI []) →
      ∃ d, _process_parameters registry "Fillet" m = .ok d ∧
        dictGet d "edge_collection_code" = some (Value.str edgeLoopAllCode)) ∧
    (∀ t, TOOLS_BY_NAME registry "Chamfer" = some t →
      dictGet m "edge_indices" = some (Value.listI []) →
      ∃ d, _process_parameters registry "Chamfer" m = .ok d ∧
        dictGet d "edge_collection_code" = some (Value.str edgeLoopAllCode)) ∧
    (∀ t, TOOLS_BY_NAME registry "Shell" = some t →
      dictGet m "face_indices" = some (Value.listI []) →
      ∃ d, _process_parameters registry "Shell" m = .ok d ∧
        dictGet d "face_collection_code" = some (Value.str shellNoFacesCode)) := by
  refine ⟨?_, ?_, ?_⟩
  · intro t hlook hei
    unfold _process_parameters
    rw [hlook]
    have hpres := dictGet_applyDefaults_of_isSome t.parameters m "edge_indices" _ hei
    unfold deriveBranch
    simp only [hpres, Option.getD_some, show pyTruthy (Value.listI []) = false from rfl,
      Bool.false_eq_true, if_false]
    exact ⟨_, rfl, dictGet_dictSet_self _ _ _⟩
  · intro t hlook hei
    unfold _process_parameters
    rw [hlook]
    have hpres := dictGet_applyDefaults_of_isSome t.parameters m "edge_indices" _ hei
    unfold deriveBranch
    simp only [hpres, Option.getD_some, show pyTruthy (Value.listI []) = false from rfl,
      Bool.false_eq_true, if_false]
    exact ⟨_, rfl, dictGet_dictSet_self _ _ _⟩
  · intro t hlook hei
    unfold _process_parameters
    rw [hlook]
    have hpres := dictGet_applyDefaults_of_isSome t.parameters m "face_indices" _ hei
    unfold deriveBranch
    simp only [hpres, Option.getD_some, show pyTruthy (Value.listI []) = false from rfl,
      Bool.false_eq_true, if_false]
    exact ⟨_, rfl, dictGet_dictSet_self _ _ _⟩

theorem c5_witness :
    (∃ d, _process_parameters TOOL_REGISTRY "Fillet"
      [("edge_indices", Value.listI []), ("face_indices", Value.listI [])] = .ok d ∧
      dictGet d "edge_collection_code" = some (Value.str edgeLoopAllCode)) ∧
    (∃ d, _process_parameters TOOL_REGISTRY "Chamfer"
      [("edge_indices", Value.listI []), ("face_indices", Value.listI [])] = .ok d ∧
      dictGet d "edge_collection_code" = some (Value.str edgeLoopAllCode)) ∧
    (∃ d, _process_parameters TOOL_REGISTRY "Shell"
      [("edge_indices", Value.listI []), ("face_indices", Value.listI [])] = .ok d ∧
      dictGet d "face_collection_code" = some (Value.str shellNoFacesCode)) := by
  have h := c5_empty_index_list_fallback TOOL_REGISTRY
    [("edge_indices", Value.listI []), ("face_indices", Value.listI [])]
  refine ⟨h.1 ⟨"Fillet", "Adds a fillet to selected edges.",
      [("body_index", ⟨"integer", "Index of the body.", some (.int 0)⟩),
       ("edge_indices", ⟨"array", "Indices of the edges to fillet.", some (.listI [])⟩),
       ("radius", ⟨"number", "Radius of the fillet.", none⟩)],
      "filletFeatures"⟩ (by decide) (by decide),
    h.2.1 ⟨"Chamfer", "Adds a chamfer to selected edges.",
      [("body_index", ⟨"integer", "Index of the body.", some (.int 0)⟩),
       ("edge_indices", ⟨"array", "Indices of the edges to chamfer.", some (.listI [])⟩),
       ("distance", ⟨"number", "Distance of the chamfer.", none⟩)],
      "chamferFeatures"⟩ (by decide) (by decide),
    h.2.2 ⟨"Shell", "Hollows out a solid body.",
      [("body_index", ⟨"integer", "Index of the body.", some (.int 0)⟩),
       ("face_indices", ⟨"array", "Indices of the faces to remove.", some (.listI [])⟩),
       ("thickness", ⟨"number", "Thickness of the shell.", none⟩)],
      "shellFeatures"⟩ (by decide) (by decide)⟩

/-- C6 counterexample: "XY" and "xy" are both accepted for CreateSketch's
plane, but the two calls do not produce the same Program: the supplied
spelling is interpolated verbatim into the fragment's comment line, so the
outputs differ — refuting the claim that any letter case produces exactly
the same successful Program as lower case. -/
theorem c6_counterexample :
    (∃ p1, generate_script TOOL_REGISTRY "CreateSketch" [("plane", Value.str "XY")] = .ok p1) ∧
    (∃ p2, generate_script TOOL_REGISTRY "CreateSketch" [("plane", Value.str "xy")] = .ok p2) ∧
    generate_script TOOL_REGISTRY "CreateSketch" [("plane", Value.str "XY")] ≠
      generate_script TOOL_REGISTRY "CreateSketch" [("plane", Value.str "xy")] :=
  ⟨exists_ok_of_exceptOk (by decide), exists_ok_of_exceptOk (by decide), by decide⟩

/-- C6 amended: a plane value whose lowercasing is outside {xy, yz, xz}
is rejected with the InvalidParameterValue `ValueError` naming the lowered
value and the accepted set (for v = "diagonal" the message is exactly
"Invalid plane: diagonal. Must be one of: xy, yz, xz"); and any two
spellings with the same lowercasing in the accepted set both succeed, with
processed parameters identical except that the caller's verbatim spelling is
kept under "plane" (and hence appears in the generated comment line) — the
derived plane_code and plane_var are identical. -/
theorem c6_plane_validation_and_case_insensitivity (v w : String) :
    (pyToLower v ∉ (["xy", "yz", "xz"] : List String) →
      generate_script TOOL_REGISTRY "CreateSketch" [("plane", Value.str v)] =
        .error (.valueError ("Invalid plane: " ++ pyToLower v ++
          ". Must be one of: xy, yz, xz"))) ∧
    (pyToLower v ∈ (["xy", "yz", "xz"] : List String) → pyToLower v = pyToLower w →
      ∃ dv dw, _process_parameters TOOL_REGISTRY "CreateSketch" [("plane", Value.str v)] =
          .ok dv ∧
        _process_parameters TOOL_REGISTRY "CreateSketch" [("plane", Value.str w)] = .ok dw ∧
        dv = dictSet dw "plane" (Value.str v) ∧
        (∃ pv, generate_script TOOL_REGISTRY "CreateSketch" [("plane", Value.str v)] =
          .ok pv) ∧
        (∃ pw, generate_script TOOL_REGISTRY "CreateSketch" [("plane", Value.str w)] =
          .ok pw)) := by
  constructor
  · intro hni
    have hb1 : (pyToLower v == "xy") = false := beq_false_of_ne (fun hc => hni (by simp [hc]))
    have hb2 : (pyToLower v == "yz") = false := beq_false_of_ne (fun hc => hni (by simp [hc]))
    have hb3 : (pyToLower v == "xz") = false := beq_false_of_ne (fun hc => hni (by simp [hc]))
    have hproc : _process_parameters TOOL_REGISTRY "CreateSketch" [("plane", Value.str v)] =
        .error (.valueError ("Invalid plane: " ++ pyToLower v ++
          ". Must be one of: xy, yz, xz")) := by
      rw [createSketch_process_eval, hb1, hb2, hb3]
      simp
    rw [generate_script_eq_fragGen]
    have hfrag : fragGen TOOL_REGISTRY "CreateSketch" [("plane", Value.str v)] =
        .error (.valueError ("Invalid plane: " ++ pyToLower v ++
          ". Must be one of: xy, yz, xz")) := by
      unfold fragGen
      simp only [show (TOOLS_BY_NAME TOOL_REGISTRY "CreateSketch").isNone = false from rfl,
        Bool.false_eq_true, if_false,
        show ((templatesGet "CreateSketch").getD "").isEmpty = false from rfl,
        Bind.bind, Except.bind, hproc, pure, Except.pure]
    rw [hfrag]
    rfl
  · intro hmem heq
    have hok : ∀ u : String, pyToLower u = pyToLower v →
        ∃ pu, generate_script TOOL_REGISTRY "CreateSketch" [("plane", Value.str u)] =
          .ok pu := by
      intro u hu
      have hproc : ∃ du, _process_parameters TOOL_REGISTRY "CreateSketch"
          [("plane", Value.str u)] = .ok du ∧
          du.map Prod.fst = ["plane", "plane_code", "plane_var"] := by
        rcases (by simpa using hmem : pyToLower v = "xy" ∨ pyToLower v = "yz" ∨
            pyToLower v = "xz") with h1 | h1 | h1
        · refine ⟨[("plane", Value.str u),
            ("plane_code", Value.str "xyPlane = component.xYConstructionPlane"),
            ("plane_var", Value.str "xyPlane")], ?_, rfl⟩
          rw [createSketch_process_eval, show (pyToLower u == "xy") = true by
            simp [hu.trans h1]]
          simp
        · refine ⟨[("plane", Value.str u),
            ("plane_code", Value.str "yzPlane = component.yZConstructionPlane"),
            ("plane_var", Value.str "yzPlane")], ?_, rfl⟩
          rw [createSketch_process_eval, show (pyToLower u == "yz") = true by
            simp [hu.trans h1]]
          have hne : (pyToLower u == "xy") = false := by
            simp [hu.trans h1]
          rw [hne]
          simp
        · refine ⟨[("plane", Value.str u),
            ("plane_code", Value.str "xzPlane = component.xZConstructionPlane"),
            ("plane_var", Value.str "xzPlane")], ?_, rfl⟩
          rw [createSketch_process_eval, show (pyToLower u == "xz") = true by
            simp [hu.trans h1]]
          have hne : (pyToLower u == "xy") = false := by
            simp [hu.trans h1]
          have hne2 : (pyToLower u == "yz") = false := by
            simp [hu.trans h1]
          rw [hne, hne2]
          simp
      obtain ⟨du, hdu, hkeys⟩ := hproc
      apply exists_ok_of_exceptOk
      rw [generate_script_eq_fragGen]
      have hfragOk : exceptOk (fragGen TOOL_REGISTRY "CreateSketch"
          [("plane", Value.str u)]) = true := by
        unfold fragGen
        simp only [show (TOOLS_BY_NAME TOOL_REGISTRY "CreateSketch").isNone = false from rfl,
          Bool.false_eq_true, if_false,
          show ((templatesGet "CreateSketch").getD "").isEmpty = false from rfl,
          Bind.bind, Except.bind, hdu, pure, Except.pure]
        simp only [pyFormat]
        rw [pyFormatGo_isOk_congr du [("plane", Value.str "xy"),
          ("plane_code", Value.str "c"), ("plane_var", Value.str "p")]
          (dictGet_isSome_of_keys_eq _ _ (by rw [hkeys]; rfl))]
        decide
      obtain ⟨f, hf⟩ := exists_ok_of_exceptOk hfragOk
      rw [hf]
      show exceptOk (wrapProgram f) = true
      exact wrapProgram_isOk f
    rcases (by simpa using hmem : pyToLower v = "xy" ∨ pyToLower v = "yz" ∨
        pyToLower v = "xz") with h1 | h1 | h1
    · refine ⟨[("plane", Value.str v),
        ("plane_code", Value.str "xyPlane = component.xYConstructionPlane"),
        ("plane_var", Value.str "xyPlane")],
        [("plane", Value.str w),
        ("plane_code", Value.str "xyPlane = component.xYConstructionPlane"),
        ("plane_var", Value.str "xyPlane")], ?_, ?_, rfl, hok v rfl, hok w heq.symm⟩
      · rw [createSketch_process_eval, show (pyToLower v == "xy") = true by simp [h1]]
        simp
      · rw [createSketch_process_eval, show (pyToLower w == "xy") = true by
          simp [(heq.symm.trans h1 : pyToLower w = "xy")]]
        simp
    · refine ⟨[("plane", Value.str v),
        ("plane_code", Value.str "yzPlane = component.yZConstructionPlane"),
        ("plane_var", Value.str "yzPlane")],
        [("plane", Value.str w),
        ("plane_code", Value.str "yzPlane = component.yZConstructionPlane"),
        ("plane_var", Value.str "yzPlane")], ?_, ?_, rfl, hok v rfl, hok w heq.symm⟩
      · rw [createSketch_process_eval, show (pyToLower v == "xy") = false by simp [h1],
          show (pyToLower v == "yz") = true by simp [h1]]
        simp
      · have hw : pyToLower w = "yz" := heq.symm.trans h1
        rw [createSketch_process_eval, show (pyToLower w == "xy") = false by simp [hw],
          show (pyToLower w == "yz") = true by simp [hw]]
        simp
    · refine ⟨[("plane", Value.str v),
        ("plane_code", Value.str "xzPlane = component.xZConstructionPlane"),
        ("plane_var", Value.str "xzPlane")],
        [("plane", Value.str w),
        ("plane_code", Value.str "xzPlane = component.xZConstructionPlane"),
        ("plane_var", Value.str "xzPlane")], ?_, ?_, rfl, hok v rfl, hok w heq.symm⟩
      · rw [createSketch_process_eval, show (pyToLower v == "xy") = false by simp [h1],
          show (pyToLower v == "yz") = false by simp [h1],
          show (pyToLower v == "xz") = true by simp [h1]]
        simp
      · have hw : pyToLower w = "xz" := heq.symm.trans h1
        rw [createSketch_process_eval, show (pyToLower w == "xy") = false by simp [hw],
          show (pyToLower w == "yz") = false by simp [hw],
          show (pyToLower w == "xz") = true by simp [hw]]
        simp

theorem c6_witness :
    (pyToLower "Diagonal" ∉ (["xy", "yz", "xz"] : List String) ∧
      generate_script TOOL_REGISTRY "CreateSketch" [("plane", Value.str "Diagonal")] =
        .error (.valueError ("Invalid plane: " ++ pyToLower "Diagonal" ++
          ". Must be one of: xy, yz, xz"))) ∧
    (pyToLower "XY" ∈ (["xy", "yz", "xz"] : List String) ∧
      pyToLower "XY" = pyToLower "xy" ∧
      ∃ dv dw, _process_parameters TOOL_REGISTRY "CreateSketch"
          [("plane", Value.str "XY")] = .ok dv ∧
        _process_parameters TOOL_REGISTRY "CreateSketch" [("plane", Value.str "xy")] =
          .ok dw ∧
        dv = dictSet dw "plane" (Value.str "XY") ∧
        (∃ pv, generate_script TOOL_REGISTRY "CreateSketch" [("plane", Value.str "XY")] =
          .ok pv) ∧
        (∃ pw, generate_script TOOL_REGISTRY "CreateSketch" [("plane", Value.str "xy")] =
          .ok pw)) :=
  ⟨⟨by decide, (c6_plane_validation_and_case_insensitivity "Diagonal" "x").1 (by decide)⟩,
    ⟨by decide, by decide,
      (c6_plane_validation_and_case_insensitivity "XY" "xy").2 (by decide) (by decide)⟩⟩

/-- C7: for every tool in the catalog and every mapping whose keys all lie
in the tool's required set (in particular, mappings supplying every required
parameter and omitting every optional one), `_process_parameters` succeeds
and the result binds every optional parameter to exactly the default value
declared in its ParameterSpec; the defaulting happens in the unconditional
loop that runs before any tool-specific derivation, and no derivation
overwrites a declared parameter. -/
theorem c7_optional_defaults_applied (t : Tool) (m : Dict) (ht : t ∈ TOOL_REGISTRY)
    (hreq : ∀ kv ∈ m, kv.1 ∈ requiredKeys t) (hnd : (m.map Prod.fst).Nodup) :
    ∃ d, _process_parameters TOOL_REGISTRY t.name m = .ok d ∧
      ∀ p spec dv, (p, spec) ∈ t.parameters → spec.default = some dv →
        dictGet d p = some dv := by
  fin_cases ht
  · have hm := assoc_shape_nil m hreq
    subst hm
    refine ⟨_, rfl, ?_⟩
    intro p spec dv hp hdv
    fin_cases hp <;> first | exact Option.noConfusion hdv | (rw [← hdv]; rfl)
  · rcases assoc_shape_two m "width" "depth" hreq hnd with
      hm | ⟨v, hm⟩ | ⟨v, hm⟩ | ⟨v, w, hm⟩ | ⟨v, w, hm⟩ <;>
      (subst hm
       refine ⟨_, rfl, ?_⟩
       intro p spec dv hp hdv
       fin_cases hp <;> first | exact Option.noConfusion hdv | (rw [← hdv]; rfl))
  · rcases assoc_shape_one m "radius" hreq hnd with hm | ⟨v, hm⟩ <;>
      (subst hm
       refine ⟨_, rfl, ?_⟩
       intro p spec dv hp hdv
       fin_cases hp <;> first | exact Option.noConfusion hdv | (rw [← hdv]; rfl))
  · rcases assoc_shape_one m "height" hreq hnd with hm | ⟨v, hm⟩ <;>
      (subst hm
       refine ⟨_, rfl, ?_⟩
       intro p spec dv hp hdv
       fin_cases hp <;> first | exact Option.noConfusion hdv | (rw [← hdv]; rfl))
  · have hm := assoc_shape_nil m hreq
    subst hm
    refine ⟨_, rfl, ?_⟩
    intro p spec dv hp hdv
    fin_cases hp <;> first | exact Option.noConfusion hdv | (rw [← hdv]; rfl)
  · rcases assoc_shape_one m "radius" hreq hnd with hm | ⟨v, hm⟩ <;>
      (subst hm
       refine ⟨_, rfl, ?_⟩
       intro p spec dv hp hdv
       fin_cases hp <;> first | exact Option.noConfusion hdv | (rw [← hdv]; rfl))
  · rcases assoc_shape_one m "distance" hreq hnd with hm | ⟨v, hm⟩ <;>
      (subst hm
       refine ⟨_, rfl, ?_⟩
       intro p spec dv hp hdv
       fin_cases hp <;> first | exact Option.noConfusion hdv | (rw [← hdv]; rfl))
  · rcases assoc_shape_one m "thickness" hreq hnd with hm | ⟨v, hm⟩ <;>
      (subst hm
       refine ⟨_, rfl, ?_⟩
       intro p spec dv hp hdv
       fin_cases hp <;> first | exact Option.noConfusion hdv | (rw [← hdv]; rfl))
  · have hm := assoc_shape_nil m hreq
    subst hm
    refine ⟨_, rfl, ?_⟩
    intro p spec dv hp hdv
    fin_cases hp <;> first | exact Option.noConfusion hdv | (rw [← hdv]; rfl)
  · rcases assoc_shape_one m "filename" hreq hnd with hm | ⟨v, hm⟩ <;>
      (subst hm
       refine ⟨_, rfl, ?_⟩
       intro p spec dv hp hdv
       fin_cases hp <;> first | exact Option.noConfusion hdv | (rw [← hdv]; rfl))

theorem c7_witness :
    ∃ d, _process_parameters TOOL_REGISTRY "Extrude" [("height", Value.int 5)] = .ok d ∧
      ∀ p spec dv, (p, spec) ∈
        [("profile_index",
          (⟨"integer", "Index of the profile to extrude.", some (.int 0)⟩ : ParamSpec)),
         ("height", ⟨"number", "Height of the extrusion.", none⟩),
         ("operation", ⟨"string", "The operation type.", some (.str "new")⟩)] →
        spec.default = some dv → dictGet d p = some dv :=
  c7_optional_defaults_applied
    ⟨"Extrude", "Extrudes a profile into a 3D shape.",
      [("profile_index", ⟨"integer", "Index of the profile to extrude.", some (.int 0)⟩),
       ("height", ⟨"number", "Height of the extrusion.", none⟩),
       ("operation", ⟨"string", "The operation type.", some (.str "new")⟩)],
      "extrudeFeatures"⟩
    [("height", Value.int 5)] (by decide) (by decide) (by decide)

/-- C8: `_process_parameters` never mutates the caller's mapping. At the
store level — where the caller's dict is a heap object passed by reference
and dict subscript assignments mutate heap cells — the cell holding
`raw_parameters` is bit-identical after the call, whether the call returns
or raises; the line-181 defensive copy means every assignment targets the
fresh copy, so inserted defaults and derived keys appear only in the
returned object. -/
theorem c8_raw_parameters_not_mutated (registry : List Tool) (tool_name : String)
    (pRef : Nat) (h : PyHeap) (hp : pRef < h.cells.length) :
    ((_process_parameters_st registry tool_name pRef h).2).cells[pRef]? = h.cells[pRef]? :=
  process_st_frame registry tool_name pRef h hp

theorem c8_witness :
    0 < (PyHeap.mk [[("plane", Value.str "XY")]]).cells.length ∧
    ((_process_parameters_st TOOL_REGISTRY "CreateSketch" 0
      ⟨[[("plane", Value.str "XY")]]⟩).2).cells[0]? =
      (PyHeap.mk [[("plane", Value.str "XY")]]).cells[0]? :=
  ⟨by decide, c8_raw_parameters_not_mutated TOOL_REGISTRY "CreateSketch" 0
    ⟨[[("plane", Value.str "XY")]]⟩ (by decide)⟩

/-- C9: the enumerated-option fallbacks are hard-coded in the derivation and
independent of the catalog: for any catalog containing the tool, if the
enumerated parameter is absent from the mapping even after catalog
defaulting, `process` succeeds and derives the fallback for "xy" / "new" /
"new" / "join" / "stl" respectively — absence of the enumerated parameter
never raises an error for these tools. -/
theorem c9_enum_absence_fallback (registry : List Tool) (m : Dict) :
    (∀ t, TOOLS_BY_NAME registry "CreateSketch" = some t →
      dictGet (applyDefaults m t.parameters) "plane" = none →
      ∃ d, _process_parameters registry "CreateSketch" m = .ok d ∧
        dictGet d "plane_code" = some (.str "xyPlane = component.xYConstructionPlane") ∧
        dictGet d "plane_var" = some (.str "xyPlane")) ∧
    (∀ t, TOOLS_BY_NAME registry "Extrude" = some t →
      dictGet (applyDefaults m t.parameters) "operation" = none →
      ∃ d, _process_parameters registry "Extrude" m = .ok d ∧
        dictGet d "operation_code" = some (.str "NewBody")) ∧
    (∀ t, TOOLS_BY_NAME registry "Revolve" = some t →
      dictGet (applyDefaults m t.parameters) "operation" = none →
      ∃ d, _process_parameters registry "Revolve" m = .ok d ∧
        dictGet d "operation_code" = some (.str "NewBody")) ∧
    (∀ t, TOOLS_BY_NAME registry "Combine" = some t →
      dictGet (applyDefaults m t.parameters) "operation" = none →
      ∃ d, _process_parameters registry "Combine" m = .ok d ∧
        dictGet d "operation_code" = some (.str "JoinFeature")) ∧
    (∀ t, TOOLS_BY_NAME registry "ExportBody" = some t →
      dictGet (applyDefaults m t.parameters) "format" = none →
      ∃ d, _process_parameters registry "ExportBody" m = .ok d ∧
        dictGet d "export_options_code" =
          some (.str "options = exportMgr.createSTLExportOptions(body)")) := by
  refine ⟨?_, ?_, ?_, ?_, ?_⟩
  · intro t hlook habs
    unfold _process_parameters
    rw [hlook]
    unfold deriveBranch
    simp only [habs, Option.getD_none, show pyLowerE (Value.str "xy") = .ok "xy" from rfl,
      Bind.bind, Except.bind]
    refine ⟨_, rfl, ?_, ?_⟩
    · rw [dictGet_dictSet_ne _ _ _ _ (by decide), dictGet_dictSet_self]
    · rw [dictGet_dictSet_self]
  · intro t hlook habs
    unfold _process_parameters
    rw [hlook]
    unfold deriveBranch
    simp only [habs, Option.getD_none, show pyLowerE (Value.str "new") = .ok "new" from rfl,
      Bind.bind, Except.bind]
    exact ⟨_, rfl, dictGet_dictSet_self _ _ _⟩
  · intro t hlook habs
    unfold _process_parameters
    rw [hlook]
    unfold deriveBranch
    simp only [habs, Option.getD_none, show pyLowerE (Value.str "new") = .ok "new" from rfl,
      Bind.bind, Except.bind]
    exact ⟨_, rfl, dictGet_dictSet_self _ _ _⟩
  · intro t hlook habs
    unfold _process_parameters
    rw [hlook]
    unfold deriveBranch
    simp only [habs, Option.getD_none, show pyLowerE (Value.str "join") = .ok "join" from rfl,
      Bind.bind, Except.bind]
    exact ⟨_, rfl, dictGet_dictSet_self _ _ _⟩
  · intro t hlook habs
    unfold _process_parameters
    rw [hlook]
    unfold deriveBranch
    simp only [habs, Option.getD_none, show pyLowerE (Value.str "stl") = .ok "stl" from rfl,
      Bind.bind, Except.bind, pure, Except.pure]
    refine ⟨_, rfl, ?_⟩
    rw [dictGet_dictSet_ne _ _ _ _ (by decide), dictGet_dictSet_self]

theorem c9_witness :
    (∃ d, _process_parameters regFallbacks "CreateSketch" [] = .ok d ∧
      dictGet d "plane_code" = some (.str "xyPlane = component.xYConstructionPlane") ∧
      dictGet d "plane_var" = some (.str "xyPlane")) ∧
    (∃ d, _process_parameters regFallbacks "Extrude" [] = .ok d ∧
      dictGet d "operation_code" = some (.str "NewBody")) ∧
    (∃ d, _process_parameters regFallbacks "Revolve" [] = .ok d ∧
      dictGet d "operation_code" = some (.str "NewBody")) ∧
    (∃ d, _process_parameters regFallbacks "Combine" [] = .ok d ∧
      dictGet d "operation_code" = some (.str "JoinFeature")) ∧
    (∃ d, _process_parameters regFallbacks "ExportBody" [] = .ok d ∧
      dictGet d "export_options_code" =
        some (.str "options = exportMgr.createSTLExportOptions(body)")) := by
  have h := c9_enum_absence_fallback regFallbacks []
  exact ⟨h.1 ⟨"CreateSketch", "sketch", [], "d"⟩ (by decide) (by decide),
    h.2.1 ⟨"Extrude", "extrude", [], "d"⟩ (by decide) (by decide),
    h.2.2.1 ⟨"Revolve", "revolve", [], "d"⟩ (by decide) (by decide),
    h.2.2.2.1 ⟨"Combine", "combine", [], "d"⟩ (by decide) (by decide),
    h.2.2.2.2 ⟨"ExportBody", "export",
      [("filename", ⟨"string", "file name", none⟩)], "d"⟩ (by decide) (by decide)⟩

theorem deriveExport_dictSet_directory (N : Dict) (v : Value)
    (hdir : (dictGet N "directory").isSome) :
    deriveBranch "ExportBody" (dictSet N "directory" v) = deriveBranch "ExportBody" N := by
  unfold deriveBranch
  simp only [show (("ExportBody" : String) == "CreateSketch") = false from rfl,
    show (("ExportBody" : String) == "Extrude") = false from rfl,
    show (("ExportBody" : String) == "Revolve") = false from rfl,
    show (("ExportBody" : String) == "Fillet") = false from rfl,
    show (("ExportBody" : String) == "Chamfer") = false from rfl,
    show (("ExportBody" : String) == "Shell") = false from rfl,
    show (("ExportBody" : String) == "Combine") = false from rfl,
    show (("ExportBody" : String) == "ExportBody") = true from rfl,
    Bool.false_eq_true, if_false, if_true]
  rw [dictGet_dictSet_ne N "format" "directory" v (by decide)]
  cases hlow : pyLowerE ((dictGet N "format").getD (Value.str "stl")) with
  | error e => simp [hlow, Bind.bind, Except.bind]
  | ok fmt =>
    simp only [hlow, Bind.bind, Except.bind]
    by_cases h1 : (fmt == "stl") = true
    · simp only [h1, if_true, pure, Except.pure]
      rw [dictSet_overwrite_cancel N "directory" "export_options_code" v
        (Value.str "options = exportMgr.createSTLExportOptions(body)")
        (Value.str desktop_path) hdir (by decide)]
    · simp only [h1, Bool.false_eq_true, if_false]
      by_cases h2 : (fmt == "obj") = true
      · simp only [h2, if_true, pure, Except.pure]
        rw [dictSet_overwrite_cancel N "directory" "export_options_code" v
          (Value.str "options = exportMgr.createOBJExportOptions(body)")
          (Value.str desktop_path) hdir (by decide)]
      · simp only [h2, Bool.false_eq_true, if_false]
        by_cases h3 : (fmt == "step") = true
        · simp only [h3, if_true, pure, Except.pure]
          rw [dictSet_overwrite_cancel N "directory" "export_options_code" v
            (Value.str "options = exportMgr.createSTEPExportOptions()")
            (Value.str desktop_path) hdir (by decide)]
        · simp only [h3, Bool.false_eq_true, if_false]
          by_cases h4 : (fmt == "iges") = true
          · simp only [h4, if_true, pure, Except.pure]
            rw [dictSet_overwrite_cancel N "directory" "export_options_code" v
              (Value.str "options = exportMgr.createIGESExportOptions()")
              (Value.str desktop_path) hdir (by decide)]
          · simp only [h4, Bool.false_eq_true, if_false]
            by_cases h5 : (fmt == "sat") = true
            · simp only [h5, if_true, pure, Except.pure]
              rw [dictSet_overwrite_cancel N "directory" "export_options_code" v
                (Value.str "options = exportMgr.createSATExportOptions()")
                (Value.str desktop_path) hdir (by decide)]
            · simp only [h5, Bool.false_eq_true, if_false]

/-- C10: for `ExportBody` the derivation always stores the desktop path
under "directory", overwriting any caller-supplied value, and consequently
the generated script is completely independent of whatever "directory"
value the caller supplies. -/
theorem c10_exportbody_directory_overridden (m : Dict) (v1 v2 : Value) :
    (∀ d, _process_parameters TOOL_REGISTRY "ExportBody" m = .ok d →
      dictGet d "directory" = some (Value.str desktop_path)) ∧
    generate_script TOOL_REGISTRY "ExportBody" (dictSet m "directory" v1) =
      generate_script TOOL_REGISTRY "ExportBody" (dictSet m "directory" v2) := by
  constructor
  · intro d hd
    unfold _process_parameters at hd
    simp only [show TOOLS_BY_NAME TOOL_REGISTRY "ExportBody" =
      some ⟨"ExportBody", "Exports a body to a file.",
        [("body_index", ⟨"integer", "Index of the body to export.", some (.int 0)⟩),
         ("filename", ⟨"string", "Name of the exported file.", none⟩),
         ("format", ⟨"string", "Export file format.", some (.str "stl")⟩)],
        "exportManager"⟩ from rfl] at hd
    unfold deriveBranch at hd
    simp only [show (("ExportBody" : String) == "CreateSketch") = false from rfl,
      show (("ExportBody" : String) == "Extrude") = false from rfl,
      show (("ExportBody" : String) == "Revolve") = false from rfl,
      show (("ExportBody" : String) == "Fillet") = false from rfl,
      show (("ExportBody" : String) == "Chamfer") = false from rfl,
      show (("ExportBody" : String) == "Shell") = false from rfl,
      show (("ExportBody" : String) == "Combine") = false from rfl,
      show (("ExportBody" : String) == "ExportBody") = true from rfl,
      Bool.false_eq_true, if_false, if_true] at hd
    revert hd
    cases hlow : pyLowerE ((dictGet (applyDefaults m
        [("body_index", ⟨"integer", "Index of the body to export.", some (.int 0)⟩),
         ("filename", ⟨"string", "Name of the exported file.", none⟩),
         ("format", ⟨"string", "Export file format.", some (.str "stl")⟩)]) "format").getD
        (Value.str "stl")) with
    | error e =>
      intro hd
      simp only [hlow, Bind.bind, Except.bind] at hd
      exact Except.noConfusion hd
    | ok fmt =>
      simp only [hlow, Bind.bind, Except.bind]
      intro hd
      repeat' split at hd
      all_goals
        first
          | exact Except.noConfusion hd
          | (simp only [pure, Except.pure, Except.ok.injEq] at hd
             rw [← hd]
             exact dictGet_dictSet_self _ _ _)
  · have hpresent : (dictGet (applyDefaults (dictSet m "directory" v2)
        [("body_index", ⟨"integer", "Index of the body to export.", some (.int 0)⟩),
         ("filename", ⟨"string", "Name of the exported file.", none⟩),
         ("format", ⟨"string", "Export file format.", some (.str "stl")⟩)])
        "directory").isSome := by
      have h0 := dictGet_applyDefaults_of_isSome
        [("body_index", ⟨"integer", "Index of the body to export.", some (.int 0)⟩),
         ("filename", ⟨"string", "Name of the exported file.", none⟩),
         ("format", ⟨"string", "Export file format.", some (.str "stl")⟩)]
        (dictSet m "directory" v2) "directory" v2 (dictGet_dictSet_self m "directory" v2)
      rw [h0]
      rfl
    have h12 : _process_parameters TOOL_REGISTRY "ExportBody" (dictSet m "directory" v1) =
        _process_parameters TOOL_REGISTRY "ExportBody" (dictSet m "directory" v2) := by
      unfold _process_parameters
      simp only [show TOOLS_BY_NAME TOOL_REGISTRY "ExportBody" =
        some ⟨"ExportBody", "Exports a body to a file.",
          [("body_index", ⟨"integer", "Index of the body to export.", some (.int 0)⟩),
           ("filename", ⟨"string", "Name of the exported file.", none⟩),
           ("format", ⟨"string", "Export file format.", some (.str "stl")⟩)],
          "exportManager"⟩ from rfl]
      rw [show dictSet m "directory" v1 =
        dictSet (dictSet m "directory" v2) "directory" v1 from
        (dictSet_dictSet_same m "directory" v2 v1).symm]
      rw [applyDefaults_dictSet_present_comm _ (dictSet m "directory" v2) "directory" v1
        (by rw [dictGet_dictSet_self]; rfl) (by decide)]
      exact deriveExport_dictSet_directory _ v1 hpresent
    unfold generate_script
    rw [h12]

theorem c10_witness :
    dictGet [("directory", Value.str desktop_path), ("body_index", Value.int 0),
      ("format", Value.str "stl"),
      ("export_options_code", Value.str "options = exportMgr.createSTLExportOptions(body)")]
      "directory" = some (Value.str desktop_path) ∧
    generate_script TOOL_REGISTRY "ExportBody"
      (dictSet [("filename", Value.str "part")] "directory" (Value.str "C:")) =
    generate_script TOOL_REGISTRY "ExportBody"
      (dictSet [("filename", Value.str "part")] "directory" (Value.str "D:")) :=
  ⟨(c10_exportbody_directory_overridden [("directory", Value.str "C:")]
      (Value.int 0) (Value.int 0)).1
      [("directory", Value.str desktop_path), ("body_index", Value.int 0),
        ("format", Value.str "stl"),
        ("export_options_code", Value.str "options = exportMgr.createSTLExportOptions(body)")]
      (by decide),
    (c10_exportbody_directory_overridden [("filename", Value.str "part")]
      (Value.str "C:") (Value.str "D:")).2⟩
